import Mathlib

/-!
# Verification of the Shop4Me order payment & status lifecycle

A shallow embedding, in Lean 4, of the payment/order core of the Shop4Me
repository: the M-Pesa gateway client (`initiateStkPush`), the callback
processor (`processCallback`), the payment-initiation entry points, the
admin status update action, and the reconciliation sweep.

Modelling conventions:
* Prisma rows become Lean structures; the database is a pair of lists
  (orders, status logs).
* `DECIMAL(10,2)` monetary columns and JS numbers become `Rat`.
* Timestamps become `Int` milliseconds since the epoch (`Date.now()`).
* Nullable columns and possibly-`undefined` JS values become `Option`.
* JS truthiness of strings (`""` is falsy) and of `string | undefined`
  env variables is made explicit via `jsTruthy`-style helpers.
* A Prisma `update` with an `undefined` field leaves that column
  unchanged; this is modelled by `Option`-valued update payload fields
  where `none` means "omit".
* External effects (fetch calls, thrown exceptions from the Prisma
  client) are resolved by explicit oracle parameters so that every code
  path of the source, including its `catch` blocks, is a total function.
-/

namespace Shop4Me

/-- The `PaymentStatus` enum of the Prisma schema. -/
inductive PaymentStatus where
  | PENDING | PAID | FAILED | REFUNDED | PARTIAL
deriving DecidableEq, Repr

/-- The `OrderStatus` enum of the Prisma schema. -/
inductive OrderStatus where
  | DRAFT | PENDING_PAYMENT | PROCESSING | SHOPPING
  | OUT_FOR_DELIVERY | DELIVERED | CANCELLED
deriving DecidableEq, Repr

/-- The `ReconciliationStatus` enum of the Prisma schema. -/
inductive ReconciliationStatus where
  | NOT_REQUIRED | PENDING | COMPLETED | DISCREPANCY
deriving DecidableEq, Repr

/-- The `StatusActor` enum of the Prisma schema. -/
inductive StatusActor where
  | CUSTOMER | ADMIN | SYSTEM
deriving DecidableEq, Repr

/-- The `StatusChannel` enum of the Prisma schema. -/
inductive StatusChannel where
  | WEB | WHATSAPP | SMS | ADMIN_PORTAL
deriving DecidableEq, Repr

/-- The columns of the `orders` table that the payment/status core reads
or writes (other columns never interact with the claims). -/
structure Order where
  id : String
  paymentStatus : PaymentStatus
  orderStatus : OrderStatus
  reconciliationStatus : ReconciliationStatus
  mpesaReceipt : Option String
  merchantRequestId : Option String
  checkoutRequestId : Option String
  cancellationReason : Option String
  paymentDueAt : Option Int
  amountCollected : Option Rat
  totalEstimate : Option Rat
  updatedAt : Int
deriving DecidableEq, Repr

/-- A row of the `status_logs` table (id/createdAt omitted). -/
structure StatusLog where
  orderId : String
  status : OrderStatus
  actor : StatusActor
  actorUserId : Option String
  channel : StatusChannel
  note : Option String
deriving DecidableEq, Repr

/-- The persistent state the payment core touches. -/
structure Db where
  orders : List Order
  logs : List StatusLog
deriving DecidableEq, Repr

/-- JS `String.prototype.trim()`: strip whitespace from both ends
(structural model over the character list). -/
def jsTrim (s : String) : String :=
  String.mk (((s.toList.dropWhile Char.isWhitespace).reverse.dropWhile
    Char.isWhitespace).reverse)

/-- Whether one character list begins with another. -/
def charsStartWith : List Char → List Char → Bool
  | _, [] => true
  | [], _ :: _ => false
  | c :: cs, p :: ps => c = p && charsStartWith cs ps

/-- JS `String.prototype.startsWith` (structural model). -/
def jsStartsWith (s pat : String) : Bool :=
  charsStartWith s.toList pat.toList

/-- JS `String.prototype.substring(n)` (structural model). -/
def jsDrop (s : String) (n : Nat) : String :=
  String.mk (s.toList.drop n)

/-- JS `String.prototype.length` (structural model; the phone strings
involved are ASCII, so code units = characters). -/
def jsLength (s : String) : Nat :=
  s.toList.length

/-- JS truthiness of a `string | null | undefined` value: `null`,
`undefined` and `""` are falsy. -/
def jsTruthyStr : Option String → Bool
  | none => false
  | some s => s ≠ ""

/-- JS `a || b` for a `string | undefined` left operand. -/
def jsOrStr (a : Option String) (b : String) : String :=
  match a with
  | none => b
  | some s => if s = "" then b else s

/-- JS string interpolation of a possibly-`undefined` value:
`template literal` renders `undefined` as the text "undefined". -/
def jsShowOptStr (a : Option String) : String :=
  a.getD "undefined"

/-- The `Math.round` of JavaScript: round half toward positive infinity. -/
def jsMathRound (q : Rat) : Int :=
  (q + 1/2).floor

/-- Model of `prisma.order.findUnique({ where: { checkoutRequestId } })`.
The column has a unique index; on a list model this is the first match. -/
def findByCheckoutRequestId (db : Db) (cid : String) : Option Order :=
  db.orders.find? (fun o => o.checkoutRequestId == some cid)

/-- Model of `prisma.order.findUnique({ where: { id } })`. -/
def findById (db : Db) (oid : String) : Option Order :=
  db.orders.find? (fun o => o.id == oid)

/-- Model of `prisma.order.update({ where: { id }, data })`: rewrite the row(s)
with the given id through `f` (ids are unique in the schema). -/
def updateOrderById (db : Db) (oid : String) (f : Order → Order) : Db :=
  { db with orders := db.orders.map (fun o => if o.id = oid then f o else o) }

/-- Model of `prisma.statusLog.create({ data })`: append-only audit trail. -/
def appendLog (db : Db) (l : StatusLog) : Db :=
  { db with logs := db.logs ++ [l] }

/-! ## The M-Pesa callback payload (`MpesaCallback` interface) -/

/-- A metadata `Value`: TS type `string | number`. -/
inductive MVal where
  | num (q : Rat)
  | str (s : String)
deriving DecidableEq, Repr

/-- One `{ Name, Value }` entry of `CallbackMetadata.Item`. -/
structure MItem where
  Name : String
  Value : MVal
deriving DecidableEq, Repr

/-- The `Body.stkCallback` of the callback payload, with the fields the TS
interface declares as required indeed present (the route handler
validates this before `processCallback` runs). -/
structure StkCallback where
  MerchantRequestID : String
  CheckoutRequestID : String
  ResultCode : Int
  ResultDesc : String
  CallbackMetadata : Option (List MItem)
deriving DecidableEq, Repr

/-- Model of `metadata.find(item => item.Name === n)?.Value`. -/
def metaFind (items : List MItem) (n : String) : Option MVal :=
  (items.find? (fun i => i.Name == n)).map MItem.Value

/-- Model of `metadata.find(item => item.Name === 'Amount')?.Value as number`.
The TS `as number` cast is static only; the model keeps the value only
when it really is a number (the provider sends `Amount` as a number). -/
def amountOfCallback (cb : StkCallback) : Option Rat :=
  match metaFind (cb.CallbackMetadata.getD []) "Amount" with
  | some (MVal.num q) => some q
  | _ => none

/-- Model of `metadata.find(item => item.Name === 'MpesaReceiptNumber')?.Value as
string`; kept only when the value really is a string. -/
def receiptOfCallback (cb : StkCallback) : Option String :=
  match metaFind (cb.CallbackMetadata.getD []) "MpesaReceiptNumber" with
  | some (MVal.str s) => some s
  | _ => none

/-! ## `processCallback` (src/lib/mpesa.ts) -/

/-- Failure injection for the two Prisma writes inside
`processCallback`; a `true` flag makes that write throw, landing in the
function's `catch` block, exactly as a forced failure in a test would. -/
structure CallbackFaults where
  statusLogCreateFails : Bool
  orderUpdateFails : Bool
deriving DecidableEq, Repr

/-- No injected failures: both writes succeed. -/
def noFaults : CallbackFaults := ⟨false, false⟩

/-- The result record `{ success, message }` of `processCallback`. -/
structure CbResult where
  success : Bool
  message : String
deriving DecidableEq, Repr

/-- The success-branch `updateData` applied to the order row:
`paymentDueAt: null`, `paymentStatus: 'PAID'`, `orderStatus:
'PROCESSING'`, `mpesaReceipt: mpesaReceiptNumber` (an `undefined`
receipt omits the column), `amountCollected: amount ? amount / 100 :
undefined` (`0` is falsy, so a zero amount also omits the column).
Prisma touches `updatedAt` on every update. -/
def callbackSuccessUpdate (now : Int) (receipt : Option String)
    (amount : Option Rat) (o : Order) : Order :=
  { o with
    paymentDueAt := none
    paymentStatus := PaymentStatus.PAID
    orderStatus := OrderStatus.PROCESSING
    mpesaReceipt := match receipt with
      | some r => some r
      | none => o.mpesaReceipt
    amountCollected := match amount with
      | some a => if a = 0 then o.amountCollected else some (a / 100)
      | none => o.amountCollected
    updatedAt := now }

/-- The failure-branch `updateData`: `paymentDueAt: null`,
`paymentStatus: 'FAILED'`, `orderStatus: 'CANCELLED'`,
`cancellationReason` from the provider's description. -/
def callbackFailureUpdate (now : Int) (desc : String) (o : Order) : Order :=
  { o with
    paymentDueAt := none
    paymentStatus := PaymentStatus.FAILED
    orderStatus := OrderStatus.CANCELLED
    cancellationReason := some ("Payment failed: " ++ desc)
    updatedAt := now }

/-- The StatusLog row created by the success branch; the note
interpolates a possibly-`undefined` receipt. -/
def callbackSuccessLog (oid : String) (receipt : Option String) : StatusLog :=
  { orderId := oid
    status := OrderStatus.PROCESSING
    actor := StatusActor.SYSTEM
    actorUserId := none
    channel := StatusChannel.WEB
    note := some ("Payment successful. M-Pesa Receipt: " ++ jsShowOptStr receipt) }

/-- The StatusLog row created by the failure branch. -/
def callbackFailureLog (oid : String) (desc : String) : StatusLog :=
  { orderId := oid
    status := OrderStatus.CANCELLED
    actor := StatusActor.SYSTEM
    actorUserId := none
    channel := StatusChannel.WEB
    note := some ("Payment failed: " ++ desc) }

/-- Model of `processCallback` of src/lib/mpesa.ts, step for step:
1. look the order up by `CheckoutRequestID` (unknown → failure result,
   no write);
2. idempotency guard: already `PAID` with a truthy receipt → success
   result, no write;
3. `prisma.statusLog.create` for the branch taken (note: the source
   creates the log BEFORE updating the order);
4. `prisma.order.update` with the branch's `updateData`.
A throw from either write is caught by the surrounding `try`, returning
`{ success: false, message: 'Failed to process callback' }` with all
writes that already happened left in place. -/
def processCallback (fm : CallbackFaults) (now : Int) (db : Db)
    (cb : StkCallback) : Db × CbResult :=
  match findByCheckoutRequestId db cb.CheckoutRequestID with
  | none => (db, ⟨false, "Order not found"⟩)
  | some order =>
    if order.paymentStatus = PaymentStatus.PAID ∧ jsTruthyStr order.mpesaReceipt then
      (db, ⟨true, "Callback already processed"⟩)
    else
      let log : StatusLog :=
        if cb.ResultCode = 0 then callbackSuccessLog order.id (receiptOfCallback cb)
        else callbackFailureLog order.id cb.ResultDesc
      if fm.statusLogCreateFails then
        (db, ⟨false, "Failed to process callback"⟩)
      else
        let db1 := appendLog db log
        if fm.orderUpdateFails then
          (db1, ⟨false, "Failed to process callback"⟩)
        else
          let db2 := updateOrderById db1 order.id (fun o =>
            if cb.ResultCode = 0 then
              callbackSuccessUpdate now (receiptOfCallback cb) (amountOfCallback cb) o
            else
              callbackFailureUpdate now cb.ResultDesc o)
          (db2, ⟨true, "Callback processed successfully"⟩)

/-! ## `initiateStkPush` (src/lib/mpesa.ts) -/

/-- The module-level M-Pesa environment configuration. `process.env`
values are `string | undefined`; `MPESA_ACCOUNT_REFERENCE_PREFIX` has
the default `'SHOP4ME'` already applied (`|| 'SHOP4ME'`). -/
structure MpesaConfig where
  consumerKey : Option String
  secretKey : Option String
  shortcode : Option String
  passkey : Option String
  callbackUrl : Option String
  accountReferenceTag : String
deriving DecidableEq, Repr

/-- JS falsiness of a `string | undefined` value. -/
def jsFalsyStr (o : Option String) : Bool :=
  !(jsTruthyStr o)

/-- Model of `validateCredentials()`: returns `{ isValid, errors }`. -/
def validateCredentials (c : MpesaConfig) : Bool × List String :=
  let keyErrors :=
    if jsFalsyStr c.consumerKey then ["MPESA_CONSUMER_KEY is missing"]
    else
      let k := c.consumerKey.getD ""
      if jsTrim k ≠ k then ["MPESA_CONSUMER_KEY has leading/trailing whitespace"]
      else if jsLength k < 10 then ["MPESA_CONSUMER_KEY seems too short"]
      else []
  let secretErrors :=
    if jsFalsyStr c.secretKey then ["MPESA_SECRET_KEY is missing"]
    else
      let s := c.secretKey.getD ""
      if jsTrim s ≠ s then ["MPESA_SECRET_KEY has leading/trailing whitespace"]
      else if jsLength s < 10 then ["MPESA_SECRET_KEY seems too short"]
      else []
  let errors := keyErrors ++ secretErrors
  (errors.isEmpty, errors)

/-- The outcome of an awaited external call: either the resolved value,
or a thrown value — `some m` a JS `Error` with message `m`, `none` a
thrown non-`Error` value. -/
inductive FetchResult (α : Type) where
  | ok (a : α)
  | thrown (msg : Option String)
deriving DecidableEq, Repr

/-- The OAuth endpoint's HTTP response as the source reads it:
`response.ok`, `response.status`, the error body text (read only when
not ok) and `data.access_token` (read only when ok). -/
structure OauthHttp where
  respOk : Bool
  status : Nat
  errText : String
  accessToken : String
deriving DecidableEq, Repr

/-- Model of `getAccessToken()`: validate credentials, then fetch the token.
`Except (Option String) String`: `.error m` models a throw. -/
def getAccessToken (c : MpesaConfig) (oauth : FetchResult OauthHttp) :
    Except (Option String) String :=
  let v := validateCredentials c
  if !v.1 then
    Except.error (some ("M-Pesa credentials validation failed: " ++
      String.intercalate ", " v.2))
  else
    match oauth with
    | FetchResult.thrown m => Except.error m
    | FetchResult.ok r =>
      if !r.respOk then
        Except.error (some ("Failed to get M-Pesa access token (" ++
          toString r.status ++ "): " ++ r.errText))
      else
        Except.ok r.accessToken

/-- Model of `formatPhoneNumber(phone)`: strip non-digits (keeping `+`),
normalize to `254XXXXXXXXX`, validate, else throw. -/
def formatPhoneNumber (phone : String) : Except (Option String) String :=
  let cleaned := String.mk (phone.toList.filter (fun ch => ch.isDigit || ch = '+'))
  let cleaned :=
    if jsStartsWith cleaned "+254" then jsDrop cleaned 1
    else if jsStartsWith cleaned "0" then "254" ++ jsDrop cleaned 1
    else if jsStartsWith cleaned "254" then cleaned
    else if jsLength cleaned = 9 then "254" ++ cleaned
    else cleaned
  if jsLength cleaned ≠ 12 || !(jsStartsWith cleaned "254") then
    Except.error (some ("Invalid phone number format: " ++ phone ++
      ". Expected format: +254XXXXXXXXX or 0XXXXXXXXX"))
  else
    Except.ok cleaned

/-- Model of `generatePassword(timestamp)`: throws when shortcode or passkey is
falsy, else base64 of `shortcode + passkey + timestamp`. The base64
re-encoding is injective and never inspected, so the model keeps the
un-encoded concatenation. -/
def generatePassword (c : MpesaConfig) (timestamp : String) :
    Except (Option String) String :=
  if jsFalsyStr c.shortcode || jsFalsyStr c.passkey then
    Except.error (some "M-Pesa shortcode and passkey are required")
  else
    Except.ok ((c.shortcode.getD "") ++ (c.passkey.getD "") ++ timestamp)

/-- The `STKPushRequest` interface. -/
structure STKPushRequest where
  orderId : String
  phone : String
  amount : Rat
  accountReference : Option String
  transactionDesc : Option String
deriving DecidableEq, Repr

/-- The `STKPushResponse` interface. -/
structure STKPushResponse where
  success : Bool
  merchantRequestId : Option String
  checkoutRequestId : Option String
  responseCode : Option String
  responseDescription : Option String
  customerMessage : Option String
  errorCode : Option String
  errorMessage : Option String
deriving DecidableEq, Repr

/-- An `STKPushResponse` with only `success := false` set. -/
def stkFailure (em : Option String) : STKPushResponse :=
  ⟨false, none, none, none, none, none, none, em⟩

/-- The STK-push endpoint's JSON body as the source reads it; fields
may be absent from the provider's JSON. -/
structure StkHttpResp where
  respOk : Bool
  ResponseCode : Option String
  ResponseDescription : Option String
  MerchantRequestID : Option String
  CheckoutRequestID : Option String
  CustomerMessage : Option String
  errorCode : Option String
  errorMessage : Option String
deriving DecidableEq, Repr

/-- The outbound STK-push payload exactly as assembled by the source
(`Amount: Math.round(request.amount)` — integer amounts). -/
structure StkPushPayload where
  BusinessShortCode : String
  Password : String
  Timestamp : String
  TransactionType : String
  Amount : Int
  PartyA : String
  PartyB : String
  PhoneNumber : String
  CallBackURL : String
  AccountReference : String
  TransactionDesc : String
deriving DecidableEq, Repr

/-- Everything external that `initiateStkPush` consults: configuration,
the wall clock's formatted timestamp, the two fetches, and whether the
final Prisma update throws (`some m` = throws with error model `m`). -/
structure StkEnv where
  config : MpesaConfig
  timestamp : String
  oauth : FetchResult OauthHttp
  push : FetchResult StkHttpResp
  orderUpdateThrow : Option (Option String)
deriving DecidableEq, Repr

/-- The observable outcome of one `initiateStkPush` run: the returned
`STKPushResponse`, the database afterwards, and which of the two
outbound provider calls were issued. -/
structure StkRun where
  resp : STKPushResponse
  db : Db
  oauthCalled : Bool
  pushCalled : Bool
  sent : Option StkPushPayload
deriving DecidableEq, Repr

/-- The order-row update performed on provider acceptance
(`ResponseCode === '0'`): correlation ids, `orderStatus =
'PENDING_PAYMENT'`, `paymentDueAt = now + 5 minutes`. An absent
response field omits that column. -/
def stkAcceptUpdate (now : Int) (r : StkHttpResp) (o : Order) : Order :=
  { o with
    merchantRequestId := match r.MerchantRequestID with
      | some v => some v
      | none => o.merchantRequestId
    checkoutRequestId := match r.CheckoutRequestID with
      | some v => some v
      | none => o.checkoutRequestId
    orderStatus := OrderStatus.PENDING_PAYMENT
    paymentDueAt := some (now + 5 * 60 * 1000)
    updatedAt := now }

/-- The `catch` block of `initiateStkPush`:
`error instanceof Error ? error.message : 'Unknown error occurred'`. -/
def stkCatch (m : Option String) : STKPushResponse :=
  stkFailure (some (m.getD "Unknown error occurred"))

/-- The `stkPushPayload` object assembled by `initiateStkPush`
(`Amount: Math.round(request.amount)` — integer amounts). -/
def stkPayload (env : StkEnv) (req : STKPushRequest)
    (formattedPhone password : String) : StkPushPayload :=
  { BusinessShortCode := env.config.shortcode.getD ""
    Password := password
    Timestamp := env.timestamp
    TransactionType := "CustomerPayBillOnline"
    Amount := jsMathRound req.amount
    PartyA := formattedPhone
    PartyB := env.config.shortcode.getD ""
    PhoneNumber := formattedPhone
    CallBackURL := env.config.callbackUrl.getD ""
    AccountReference := jsOrStr req.accountReference
      (env.config.accountReferenceTag ++ "-" ++ req.orderId)
    TransactionDesc := jsOrStr req.transactionDesc
      ("Shop4Me Order " ++ req.orderId) }

/-- Model of `initiateStkPush(request)` of src/lib/mpesa.ts, step for step:
config check, token fetch, phone normalization, password, STK-push
fetch, then — only on HTTP-ok + `ResponseCode === '0'` — the single
order-row update. Every throw lands in the `catch`, which returns a
failure response; no failure path writes to the database. -/
def initiateStkPush (env : StkEnv) (now : Int) (db : Db)
    (req : STKPushRequest) : StkRun :=
  if jsFalsyStr env.config.shortcode || jsFalsyStr env.config.callbackUrl then
    ⟨stkCatch (some "M-Pesa configuration incomplete"), db, false, false, none⟩
  else
    if !(validateCredentials env.config).1 then
      ⟨stkCatch (some ("M-Pesa credentials validation failed: " ++
        String.intercalate ", " (validateCredentials env.config).2)), db, false, false, none⟩
    else
      match env.oauth with
      | FetchResult.thrown m => ⟨stkCatch m, db, true, false, none⟩
      | FetchResult.ok r =>
        if !r.respOk then
          ⟨stkCatch (some ("Failed to get M-Pesa access token (" ++
            toString r.status ++ "): " ++ r.errText)), db, true, false, none⟩
        else
          match formatPhoneNumber req.phone with
          | Except.error m => ⟨stkCatch m, db, true, false, none⟩
          | Except.ok formattedPhone =>
            match generatePassword env.config env.timestamp with
            | Except.error m => ⟨stkCatch m, db, true, false, none⟩
            | Except.ok password =>
              match env.push with
              | FetchResult.thrown m => ⟨stkCatch m, db, true, true, some (stkPayload env req formattedPhone password)⟩
              | FetchResult.ok resp =>
                if !resp.respOk then
                  ⟨{ stkFailure (some (jsOrStr resp.errorMessage "STK Push request failed"))
                      with errorCode := resp.errorCode }, db, true, true, some (stkPayload env req formattedPhone password)⟩
                else if resp.ResponseCode = some "0" then
                  match env.orderUpdateThrow with
                  | some m => ⟨stkCatch m, db, true, true, some (stkPayload env req formattedPhone password)⟩
                  | none =>
                    if (findById db req.orderId).isNone then
                      -- Prisma `update` on a missing row throws (P2025).
                      ⟨stkCatch (some "Record to update not found."), db, true, true, some (stkPayload env req formattedPhone password)⟩
                    else
                      ⟨{ success := true
                         merchantRequestId := resp.MerchantRequestID
                         checkoutRequestId := resp.CheckoutRequestID
                         responseCode := resp.ResponseCode
                         responseDescription := resp.ResponseDescription
                         customerMessage := resp.CustomerMessage
                         errorCode := none
                         errorMessage := none },
                       updateOrderById db req.orderId (stkAcceptUpdate now resp),
                       true, true, some (stkPayload env req formattedPhone password)⟩
                else
                  ⟨{ stkFailure (some (jsOrStr resp.ResponseDescription "STK Push request was rejected"))
                      with responseCode := resp.ResponseCode }, db, true, true, some (stkPayload env req formattedPhone password)⟩

/-! ## C10 auxiliary definitions -/

/-- Whether a possibly-thrown Prisma error (`Option (Option String)`:
outer `some` = throws, inner `some m` = an `Error` with message `m`)
has a non-empty message whenever it is an `Error`. -/
def thrownMsgNonempty : Option (Option String) → Bool
  | some (some m) => m ≠ ""
  | _ => true

/-- Whether a fetch outcome's thrown `Error`, if any, has a non-empty
message. -/
def fetchMsgNonempty {α : Type} : FetchResult α → Bool
  | FetchResult.thrown (some m) => m ≠ ""
  | _ => true

/-- The runtime property JS gives the code's `catch` block: any `Error`
thrown by `fetch`, `response.json()` or the Prisma client carries a
non-empty `message` (non-`Error` thrown values are covered by the
source's `'Unknown error occurred'` fallback and need no assumption). -/
def StkEnv.errorsNonempty (env : StkEnv) : Prop :=
  fetchMsgNonempty env.oauth = true ∧ fetchMsgNonempty env.push = true ∧
    thrownMsgNonempty env.orderUpdateThrow = true

/-- Fixture for the C10 witness: an environment with the M-Pesa
shortcode not configured — the first failure mode. -/
def c10Env : StkEnv :=
  { config := { consumerKey := none, secretKey := none, shortcode := none
                passkey := none, callbackUrl := none, accountReferenceTag := "SHOP4ME" }
    timestamp := "20260101120000"
    oauth := FetchResult.ok ⟨true, 200, "", "tok"⟩
    push := FetchResult.ok ⟨true, some "0", none, none, none, none, none, none⟩
    orderUpdateThrow := none }

/-- Fixture for the C10 witness: the payment request. -/
def c10Req : STKPushRequest :=
  { orderId := "order-c10", phone := "0712345678", amount := 1000
    accountReference := none, transactionDesc := none }

/-! ## The callback route handler (app/api/.../route.ts, `POST`) -/

/-- The callback body as it arrives over the wire, before validation:
every field of `Body.stkCallback` may be absent. -/
structure RawStkCallback where
  MerchantRequestID : Option String
  CheckoutRequestID : Option String
  ResultCode : Int
  ResultDesc : String
  CallbackMetadata : Option (List MItem)
deriving DecidableEq, Repr

/-- The envelope: `body.Body?.stkCallback` — `none` when `Body` or
`stkCallback` is missing. -/
structure RawCallback where
  stkCallback : Option RawStkCallback
deriving DecidableEq, Repr

/-- A `NextResponse.json` reply: HTTP status plus the `ok`/`message`/
`error` body fields actually emitted by the handlers. -/
structure JsonResp where
  status : Nat
  ok : Bool
  message : Option String
  error : Option String
deriving DecidableEq, Repr

/-- The route's structural-validation predicate: a payload that parsed
but lacks `Body.stkCallback`, or whose `MerchantRequestID` or
`CheckoutRequestID` is JS-falsy. (A failing `request.json()` is not a
structural rejection: it lands in the catch, which answers 200.) -/
def structurallyInvalid : Option RawCallback → Bool
  | none => false
  | some body =>
    match body.stkCallback with
    | none => true
    | some sc => jsFalsyStr sc.MerchantRequestID || jsFalsyStr sc.CheckoutRequestID

/-- The M-Pesa callback route `POST`: parse (`parse = none` models a
throwing `request.json()`, landing in the catch that deliberately
answers 200), validate structure (400), validate correlation ids by JS
truthiness (400), then `processCallback`; a successful result is
acknowledged with 200, a failed one with 500. -/
def mpesaCallbackPOST (fm : CallbackFaults) (now : Int) (db : Db)
    (parse : Option RawCallback) : Db × JsonResp :=
  match parse with
  | none => (db, ⟨200, false, none, some "Internal server error"⟩)
  | some body =>
    match body.stkCallback with
    | none => (db, ⟨400, false, none, some "Invalid callback structure"⟩)
    | some sc =>
      if jsFalsyStr sc.MerchantRequestID || jsFalsyStr sc.CheckoutRequestID then
        (db, ⟨400, false, none, some "Missing required fields"⟩)
      else
        let cb : StkCallback :=
          ⟨sc.MerchantRequestID.getD "", sc.CheckoutRequestID.getD "",
           sc.ResultCode, sc.ResultDesc, sc.CallbackMetadata⟩
        let r := processCallback fm now db cb
        if r.2.success then
          (r.1, ⟨200, true, some r.2.message, none⟩)
        else
          (r.1, ⟨500, false, none, some r.2.message⟩)

/-! ## The payment-initiation route (app/api/.../route.ts, `POST`) -/

/-- JS truthiness of a `number | undefined` value (`0` is falsy). -/
def jsTruthyNum (o : Option Rat) : Bool :=
  match o with
  | none => false
  | some q => q ≠ 0

/-- The observable outcome of the pay route: database, HTTP reply, and
which provider calls `initiateStkPush` issued on its behalf. -/
structure PayRouteRun where
  db : Db
  status : Nat
  ok : Bool
  error : Option String
  oauthCalled : Bool
  pushCalled : Bool
deriving DecidableEq, Repr

/-- The tail of the pay route after the guards: run `initiateStkPush`
and translate its result (200 on success, 400 on failure). -/
def payPOSTStkContinue (run : StkRun) : PayRouteRun :=
  if run.resp.success then
    ⟨run.db, 200, true, none, run.oauthCalled, run.pushCalled⟩
  else
    ⟨run.db, 400, false,
     some (jsOrStr run.resp.errorMessage "Failed to initiate payment"),
     run.oauthCalled, run.pushCalled⟩

/-- The payment-initiation API route `POST`, step for step: required
body fields (JS-falsy check), order lookup (404), already-paid (400),
cancelled (400), the 5-minute in-progress guard (429), then
`initiateStkPush` (200 on success, 400 on failure). -/
def payPOST (env : StkEnv) (now : Int) (db : Db)
    (orderId phone : Option String) (amount : Option Rat) : PayRouteRun :=
  if jsFalsyStr orderId || jsFalsyStr phone || !jsTruthyNum amount then
    ⟨db, 400, false, some "Missing required fields: orderId, phone, amount", false, false⟩
  else
    match findById db (orderId.getD "") with
    | none => ⟨db, 404, false, some "Order not found", false, false⟩
    | some order =>
      if order.paymentStatus = PaymentStatus.PAID then
        ⟨db, 400, false, some "Order has already been paid", false, false⟩
      else if order.orderStatus = OrderStatus.CANCELLED then
        ⟨db, 400, false, some "Order has been cancelled", false, false⟩
      else if jsTruthyStr order.checkoutRequestId ∧
              order.paymentStatus = PaymentStatus.PENDING ∧
              now - order.updatedAt < 5 * 60 * 1000 then
        ⟨db, 429, false,
         some "Payment is already in progress. Please wait a few minutes before trying again.",
         false, false⟩
      else
        payPOSTStkContinue (initiateStkPush env now db
          { orderId := order.id
            phone := phone.getD ""
            amount := amount.getD 0
            accountReference := some ("SHOP4ME-" ++ order.id)
            transactionDesc := some ("Shop4Me Order " ++ order.id) })

/-! ## `initiatePayment` (app/checkout/page.tsx, server action) -/

/-- Model of `sanitizePhone(input)` of the checkout page: strip non-digit,
non-`+` characters, then replace one leading `0` with `+254`. -/
def sanitizePhone (input : String) : String :=
  let cleaned := String.mk (input.toList.filter (fun ch => ch.isDigit || ch = '+'))
  if jsStartsWith cleaned "0" then "+254" ++ jsDrop cleaned 1 else cleaned

/-- The `PaymentActionResult` union of the checkout page, flattened:
`ok`, the `formError`/field error text if any, and the returned
checkout request id on success. -/
structure PaymentActionResult where
  ok : Bool
  formError : Option String
  phoneFieldError : Option String
  checkoutRequestId : Option String
deriving DecidableEq, Repr

/-- The observable outcome of one `initiatePayment` action run. -/
structure PayActionRun where
  db : Db
  result : PaymentActionResult
  oauthCalled : Bool
  pushCalled : Bool
deriving DecidableEq, Repr

/-- The tail of the checkout action after the guards: run
`initiateStkPush` and translate its result. -/
def initiatePaymentStkContinue (run : StkRun) : PayActionRun :=
  if run.resp.success then
    ⟨run.db, ⟨true, none, none, run.resp.checkoutRequestId⟩,
     run.oauthCalled, run.pushCalled⟩
  else
    ⟨run.db,
     ⟨false, some (jsOrStr run.resp.errorMessage "Failed to initiate payment"),
      none, none⟩, run.oauthCalled, run.pushCalled⟩

/-- Model of `initiatePayment(formData)` of app/checkout/page.tsx, step for
step: trim the form fields, require them, look the order up, require a
non-null `totalEstimate` (a Prisma `Decimal`, truthy whenever non-null,
including zero), reject already-paid and cancelled orders, apply the
5-minute in-progress guard, then `initiateStkPush` with the sanitized
phone and `Number(order.totalEstimate)`. -/
def initiatePayment (env : StkEnv) (now : Int) (db : Db)
    (orderIdField phoneField : String) : PayActionRun :=
  let orderId := jsTrim orderIdField
  let phone := jsTrim phoneField
  if orderId = "" then
    ⟨db, ⟨false, some "Order ID is required", none, none⟩, false, false⟩
  else if phone = "" then
    ⟨db, ⟨false, none, some "Phone number is required", none⟩, false, false⟩
  else
    match findById db orderId with
    | none => ⟨db, ⟨false, some "Order not found", none, none⟩, false, false⟩
    | some order =>
      match order.totalEstimate with
      | none => ⟨db, ⟨false, some "Order total is not available", none, none⟩, false, false⟩
      | some totalEstimate =>
        if order.paymentStatus = PaymentStatus.PAID then
          ⟨db, ⟨false, some "Order has already been paid", none, none⟩, false, false⟩
        else if order.orderStatus = OrderStatus.CANCELLED then
          ⟨db, ⟨false, some "Order has been cancelled", none, none⟩, false, false⟩
        else if jsTruthyStr order.checkoutRequestId ∧
                order.paymentStatus = PaymentStatus.PENDING ∧
                now - order.updatedAt < 5 * 60 * 1000 then
          ⟨db, ⟨false,
            some "Payment is already in progress. Please wait a few minutes before trying again.",
            none, none⟩, false, false⟩
        else
          initiatePaymentStkContinue (initiateStkPush env now db
            { orderId := order.id
              phone := sanitizePhone phone
              amount := totalEstimate
              accountReference := some ("SHOP4ME-" ++ order.id)
              transactionDesc := some ("Shop4Me Order " ++ order.id) })

/-! ## `updateOrderStatus` (app/admin/orders/actions.ts) -/

/-- The `AdminActionResult` union: `{ ok: true } | { ok: false, error }`. -/
structure AdminActionResult where
  ok : Bool
  error : Option String
deriving DecidableEq, Repr

/-- The `validStatuses` membership test of `updateOrderStatus`,
returning the parsed enum value. -/
def parseOrderStatus : String → Option OrderStatus
  | "DRAFT" => some OrderStatus.DRAFT
  | "PENDING_PAYMENT" => some OrderStatus.PENDING_PAYMENT
  | "PROCESSING" => some OrderStatus.PROCESSING
  | "SHOPPING" => some OrderStatus.SHOPPING
  | "OUT_FOR_DELIVERY" => some OrderStatus.OUT_FOR_DELIVERY
  | "DELIVERED" => some OrderStatus.DELIVERED
  | "CANCELLED" => some OrderStatus.CANCELLED
  | _ => none

/-- Model of `updateOrderStatus(formData)` of app/admin/orders/actions.ts, step
for step: admin check, required fields, `validStatuses` membership —
and then an UNCONDITIONAL `orderStatus` write (no transition
validation of any kind), followed by one StatusLog append (actor
`ADMIN`, channel `ADMIN_PORTAL`, `note || undefined`). A missing order
makes the Prisma update throw, landing in the catch (error result, no
write). -/
def updateOrderStatus (isAdmin : Bool) (currentUserId : Option String)
    (now : Int) (db : Db) (orderIdField statusField noteField : String) :
    Db × AdminActionResult :=
  let orderId := jsTrim orderIdField
  let status := jsTrim statusField
  let note := jsTrim noteField
  if !isAdmin then
    (db, ⟨false, some "Unauthorized: Admin access required"⟩)
  else if orderId = "" || status = "" then
    (db, ⟨false, some "Order ID and status are required"⟩)
  else
    match parseOrderStatus status with
    | none => (db, ⟨false, some "Invalid order status"⟩)
    | some st =>
      match findById db orderId with
      | none => (db, ⟨false, some "Failed to update order status. Please try again."⟩)
      | some _ =>
        let db1 := updateOrderById db orderId
          (fun o => { o with orderStatus := st, updatedAt := now })
        let db2 := appendLog db1
          { orderId := orderId
            status := st
            actor := StatusActor.ADMIN
            actorUserId := currentUserId
            channel := StatusChannel.ADMIN_PORTAL
            note := if note = "" then none else some note }
        (db2, ⟨true, none⟩)

/-! ## The reconciliation sweep (app/api/.../route.ts, `POST`) -/

/-- The expiry-pass query predicate: `paymentStatus == 'PENDING'`,
`paymentDueAt < now - 30 minutes` (a SQL `lt`; a NULL `paymentDueAt`
never matches), `orderStatus != 'CANCELLED'`. -/
def overduePred (now : Int) (o : Order) : Bool :=
  o.paymentStatus == PaymentStatus.PENDING &&
  (match o.paymentDueAt with
    | some t => t < now - 30 * 60 * 1000
    | none => false) &&
  o.orderStatus != OrderStatus.CANCELLED

/-- The expiry-pass order update: `paymentStatus = 'FAILED'`,
`orderStatus = 'CANCELLED'`, the timeout cancellation reason,
`reconciliationStatus = 'COMPLETED'`. -/
def expireOrder (now : Int) (o : Order) : Order :=
  { o with
    paymentStatus := PaymentStatus.FAILED
    orderStatus := OrderStatus.CANCELLED
    cancellationReason := some "Payment timeout - no response from M-Pesa within 30 minutes"
    reconciliationStatus := ReconciliationStatus.COMPLETED
    updatedAt := now }

/-- The StatusLog row the expiry pass appends per expired order. -/
def expiryLog (oid : String) : StatusLog :=
  { orderId := oid
    status := OrderStatus.CANCELLED
    actor := StatusActor.SYSTEM
    actorUserId := none
    channel := StatusChannel.WEB
    note := some "Auto-cancelled: Payment timeout (30 minutes expired)" }

/-- The expiry pass of the reconciliation job: query the overdue
pending orders, then per order update the row and append one log.
Returns the database and the `expiredPayments` counter. -/
def expiryPass (now : Int) (db : Db) : Db × Nat :=
  let selected := db.orders.filter (overduePred now)
  (selected.foldl
    (fun acc o => appendLog (updateOrderById acc o.id (expireOrder now)) (expiryLog o.id))
    db,
   selected.length)

/-- The per-row effect of running the expiry loop for the snapshot `S`:
each selected order's update touches only the row with its id. -/
def expirySeq (now : Int) (S : List Order) (r : Order) : Order :=
  S.foldl (fun acc o => if acc.id = o.id then expireOrder now acc else acc) r

/-- The discrepancy-pass query predicate: `paymentStatus == 'PAID'`,
`reconciliationStatus == 'NOT_REQUIRED'`, and (receipt IS NULL, or both
`amountCollected` and `totalEstimate` non-null). -/
def discrepancyPred (o : Order) : Bool :=
  o.paymentStatus == PaymentStatus.PAID &&
  o.reconciliationStatus == ReconciliationStatus.NOT_REQUIRED &&
  (o.mpesaReceipt == none ||
    (o.amountCollected != none && o.totalEstimate != none))

/-- The per-order discrepancy decision: a JS-falsy receipt, or an
absolute difference of more than 10 between `amountCollected` and
`totalEstimate` (each defaulted to 0), marks a `DISCREPANCY`. Returns
the new `reconciliationStatus` and the note text (the source
interpolates the two numbers; their textual rendering is irrelevant to
every claim and elided to `toString`). -/
def discrepancyDecision (o : Order) : ReconciliationStatus × String :=
  let amountCollected := o.amountCollected.getD 0
  let totalEstimate := o.totalEstimate.getD 0
  let difference := |amountCollected - totalEstimate|
  if jsFalsyStr o.mpesaReceipt then
    (ReconciliationStatus.DISCREPANCY, "Missing M-Pesa receipt number")
  else if difference > 10 then
    (ReconciliationStatus.DISCREPANCY,
     "Amount discrepancy: Collected " ++ toString amountCollected ++
       " vs Expected " ++ toString totalEstimate)
  else
    (ReconciliationStatus.COMPLETED, "Auto-reconciled: No significant discrepancies found")

/-- One discrepancy-pass step: update `reconciliationStatus`, and
append a log only when the decision is `DISCREPANCY` (status field =
the order's current `orderStatus`). -/
def discrepancyStep (now : Int) (acc : Db) (o : Order) : Db :=
  let d := discrepancyDecision o
  let acc1 := updateOrderById acc o.id
    (fun r => { r with reconciliationStatus := d.1, updatedAt := now })
  if d.1 = ReconciliationStatus.DISCREPANCY then
    appendLog acc1
      { orderId := o.id
        status := o.orderStatus
        actor := StatusActor.SYSTEM
        actorUserId := none
        channel := StatusChannel.WEB
        note := some ("Reconciliation: " ++ d.2) }
  else acc1

/-- The counters the reconciliation job reports. -/
structure ReconCounters where
  processedOrders : Nat
  expiredPayments : Nat
  discrepancies : Nat
  errors : Nat
deriving DecidableEq, Repr

/-- The reconciliation route `POST`: shared-secret bearer check (401),
then the expiry pass, then the discrepancy pass, then the counters with
HTTP 200. Fault-free runs are modelled; the per-order `try` blocks only
matter when a write throws. -/
def reconciliationPOST (authHeader : Option String) (cronSecret : Option String)
    (now : Int) (db : Db) : Db × Nat × ReconCounters :=
  let expectedAuth := "Bearer " ++ jsOrStr cronSecret "dev-cron-secret"
  if authHeader ≠ some expectedAuth then
    (db, 401, ⟨0, 0, 0, 0⟩)
  else
    let afterExpiry := expiryPass now db
    let potential := afterExpiry.1.orders.filter discrepancyPred
    let afterDisc := potential.foldl (discrepancyStep now) afterExpiry.1
    let discrepancies := (potential.filter
      (fun o => (discrepancyDecision o).1 == ReconciliationStatus.DISCREPANCY)).length
    (afterDisc, 200,
     ⟨afterExpiry.2 + potential.length, afterExpiry.2, discrepancies, 0⟩)
/-! ## Claim-specific predicates and concrete fixtures -/

/-- Fixture for the C1 counterexample: a pending order awaiting its
callback. -/
def c1Order : Order :=
  { id := "order-c1", paymentStatus := PaymentStatus.PENDING
    orderStatus := OrderStatus.PENDING_PAYMENT
    reconciliationStatus := ReconciliationStatus.NOT_REQUIRED
    mpesaReceipt := none, merchantRequestId := some "MR-c1"
    checkoutRequestId := some "CR-c1", cancellationReason := none
    paymentDueAt := some 300000, amountCollected := none
    totalEstimate := none, updatedAt := 0 }

/-- Fixture for the C1 counterexample: a valid successful callback with
no metadata (the source's own `MpesaCallback` interface marks
`CallbackMetadata` optional, and the route validates only the two
correlation ids). -/
def c1Cb : StkCallback :=
  { MerchantRequestID := "MR-c1", CheckoutRequestID := "CR-c1"
    ResultCode := 0, ResultDesc := "The service request is processed successfully."
    CallbackMetadata := none }

/-- Fixture for the C1 witness: an order already `PAID` with a
non-empty receipt. -/
def c1PaidOrder : Order :=
  { id := "order-c1w", paymentStatus := PaymentStatus.PAID
    orderStatus := OrderStatus.PROCESSING
    reconciliationStatus := ReconciliationStatus.NOT_REQUIRED
    mpesaReceipt := some "RCPT1W", merchantRequestId := some "MR-c1w"
    checkoutRequestId := some "CR-c1w", cancellationReason := none
    paymentDueAt := none, amountCollected := none
    totalEstimate := none, updatedAt := 0 }

/-- Fixture for the C1 witness: a successful callback for `c1PaidOrder`
carrying a receipt. -/
def c1WCb : StkCallback :=
  { MerchantRequestID := "MR-c1w", CheckoutRequestID := "CR-c1w"
    ResultCode := 0, ResultDesc := "Success"
    CallbackMetadata := some [⟨"MpesaReceiptNumber", MVal.str "RCPT1W"⟩] }

/-- Fixture for the C1 witness: a pending order for the twice-processing
part. -/
def c1PendingOrder : Order :=
  { id := "order-c1p", paymentStatus := PaymentStatus.PENDING
    orderStatus := OrderStatus.PENDING_PAYMENT
    reconciliationStatus := ReconciliationStatus.NOT_REQUIRED
    mpesaReceipt := none, merchantRequestId := some "MR-c1p"
    checkoutRequestId := some "CR-c1p", cancellationReason := none
    paymentDueAt := some 300000, amountCollected := none
    totalEstimate := none, updatedAt := 0 }

/-- Fixture for the C1 witness: a successful callback for
`c1PendingOrder` carrying a non-empty receipt. -/
def c1PCb : StkCallback :=
  { MerchantRequestID := "MR-c1p", CheckoutRequestID := "CR-c1p"
    ResultCode := 0, ResultDesc := "Success"
    CallbackMetadata := some [⟨"MpesaReceiptNumber", MVal.str "RCPT1P"⟩] }

/-- Fixture for the C2 counterexample: a pending order whose callback
is in flight. -/
def c2Order : Order :=
  { id := "order-c2", paymentStatus := PaymentStatus.PENDING
    orderStatus := OrderStatus.PENDING_PAYMENT
    reconciliationStatus := ReconciliationStatus.NOT_REQUIRED
    mpesaReceipt := none, merchantRequestId := some "MR-c2"
    checkoutRequestId := some "CR-c2", cancellationReason := none
    paymentDueAt := some 300000, amountCollected := none
    totalEstimate := none, updatedAt := 0 }

/-- Fixture for the C2 counterexample: a successful callback for that
order (metadata carrying a receipt). -/
def c2Cb : StkCallback :=
  { MerchantRequestID := "MR-c2", CheckoutRequestID := "CR-c2"
    ResultCode := 0, ResultDesc := "Success"
    CallbackMetadata := some [⟨"MpesaReceiptNumber", MVal.str "RCPT2"⟩] }

/-- The invariant claimed by the spec: every `PAID` order has a
non-null `mpesaReceipt`. -/
def PaidHasReceipt (db : Db) : Prop :=
  ∀ o ∈ db.orders, o.paymentStatus = PaymentStatus.PAID → o.mpesaReceipt ≠ none

instance (db : Db) : Decidable (PaidHasReceipt db) := by
  unfold PaidHasReceipt; infer_instance

/-- Fixture for the C3 counterexample: a pending order awaiting its
callback, with no receipt yet. -/
def c3Order : Order :=
  { id := "order-c3", paymentStatus := PaymentStatus.PENDING
    orderStatus := OrderStatus.PENDING_PAYMENT
    reconciliationStatus := ReconciliationStatus.NOT_REQUIRED
    mpesaReceipt := none, merchantRequestId := some "MR-c3"
    checkoutRequestId := some "CR-c3", cancellationReason := none
    paymentDueAt := some 300000, amountCollected := none
    totalEstimate := none, updatedAt := 0 }

/-- Fixture for the C3 counterexample: a structurally valid successful
callback (`ResultCode = 0`) that carries no metadata at all — the
`CallbackMetadata` field is optional in the source's own interface. -/
def c3Cb : StkCallback :=
  { MerchantRequestID := "MR-c3", CheckoutRequestID := "CR-c3"
    ResultCode := 0, ResultDesc := "The service request is processed successfully."
    CallbackMetadata := none }

/-- Fixture for C4: a provider environment (its contents are irrelevant
to the guard paths). -/
def c4Env : StkEnv :=
  { config := { consumerKey := some "key1234567890", secretKey := some "secret1234567890"
                shortcode := some "174379", passkey := some "pk"
                callbackUrl := some "https://example.test/cb"
                accountReferenceTag := "SHOP4ME" }
    timestamp := "20260101120000"
    oauth := FetchResult.ok ⟨true, 200, "", "tok"⟩
    push := FetchResult.ok ⟨true, some "0", some "Success", some "MR", some "CR", some "ok", none, none⟩
    orderUpdateThrow := none }

/-- Fixture for the C4 counterexample: an order satisfying every
premise of the claim (`checkoutRequestId` set, `PENDING`, updated one
minute ago) whose `totalEstimate` is null. -/
def c4Order : Order :=
  { id := "order-c4", paymentStatus := PaymentStatus.PENDING
    orderStatus := OrderStatus.PENDING_PAYMENT
    reconciliationStatus := ReconciliationStatus.NOT_REQUIRED
    mpesaReceipt := none, merchantRequestId := some "MR-c4"
    checkoutRequestId := some "CR-c4", cancellationReason := none
    paymentDueAt := some 300000, amountCollected := none
    totalEstimate := none, updatedAt := 0 }

/-- Fixture for the C4 witness: an order satisfying every premise of
the amended guard claim. -/
def c4WOrder : Order :=
  { id := "order-c4w", paymentStatus := PaymentStatus.PENDING
    orderStatus := OrderStatus.PENDING_PAYMENT
    reconciliationStatus := ReconciliationStatus.NOT_REQUIRED
    mpesaReceipt := none, merchantRequestId := some "MR-c4w"
    checkoutRequestId := some "CR-c4w", cancellationReason := none
    paymentDueAt := some 300000, amountCollected := none
    totalEstimate := some 1000, updatedAt := 0 }

/-- Fixture for the C7 counterexample: a pending order whose
`paymentDueAt` lies exactly at the 30-minute boundary for `now =
3600000`. -/
def c7Order : Order :=
  { id := "order-c7", paymentStatus := PaymentStatus.PENDING
    orderStatus := OrderStatus.PENDING_PAYMENT
    reconciliationStatus := ReconciliationStatus.NOT_REQUIRED
    mpesaReceipt := none, merchantRequestId := some "MR-c7"
    checkoutRequestId := some "CR-c7", cancellationReason := none
    paymentDueAt := some 1800000, amountCollected := none
    totalEstimate := none, updatedAt := 0 }

/-- Fixture for the C7 witness: an order one millisecond past the
boundary at `now = 1800001`. -/
def c7WOrder : Order :=
  { id := "order-c7w", paymentStatus := PaymentStatus.PENDING
    orderStatus := OrderStatus.PENDING_PAYMENT
    reconciliationStatus := ReconciliationStatus.NOT_REQUIRED
    mpesaReceipt := none, merchantRequestId := some "MR-c7w"
    checkoutRequestId := some "CR-c7w", cancellationReason := none
    paymentDueAt := some 0, amountCollected := none
    totalEstimate := none, updatedAt := 0 }

/-- Fixture for the C8 counterexample: a `DELIVERED` (terminal) order. -/
def c8Order : Order :=
  { id := "order-c8", paymentStatus := PaymentStatus.PAID
    orderStatus := OrderStatus.DELIVERED
    reconciliationStatus := ReconciliationStatus.COMPLETED
    mpesaReceipt := some "RCPT8", merchantRequestId := some "MR-c8"
    checkoutRequestId := some "CR-c8", cancellationReason := none
    paymentDueAt := none, amountCollected := some 1000
    totalEstimate := some 1000, updatedAt := 0 }

/-- Fixture for the C5 counterexample: a provider environment that
accepts the push. -/
def c5Env : StkEnv :=
  { config := { consumerKey := some "key1234567890", secretKey := some "secret1234567890"
                shortcode := some "174379", passkey := some "pk"
                callbackUrl := some "https://example.test/cb"
                accountReferenceTag := "SHOP4ME" }
    timestamp := "20260101120000"
    oauth := FetchResult.ok ⟨true, 200, "", "tok"⟩
    push := FetchResult.ok ⟨true, some "0", some "Success", some "MR-c5", some "CR-c5",
      some "ok", none, none⟩
    orderUpdateThrow := none }

/-- Fixture for the C5 counterexample: a draft order about to be
charged. -/
def c5Order : Order :=
  { id := "order-c5", paymentStatus := PaymentStatus.PENDING
    orderStatus := OrderStatus.DRAFT
    reconciliationStatus := ReconciliationStatus.NOT_REQUIRED
    mpesaReceipt := none, merchantRequestId := none
    checkoutRequestId := none, cancellationReason := none
    paymentDueAt := none, amountCollected := none
    totalEstimate := some 1000, updatedAt := 0 }

/-- Fixture for the C5 counterexample: the payment request. -/
def c5Req : STKPushRequest :=
  { orderId := "order-c5", phone := "0712345678", amount := 1000
    accountReference := none, transactionDesc := none }

/-- Fixture for the C5 witness: a pending order with a callback in
flight. -/
def c5WOrder : Order :=
  { id := "order-c5w", paymentStatus := PaymentStatus.PENDING
    orderStatus := OrderStatus.PENDING_PAYMENT
    reconciliationStatus := ReconciliationStatus.NOT_REQUIRED
    mpesaReceipt := none, merchantRequestId := some "MR-c5w"
    checkoutRequestId := some "CR-c5w", cancellationReason := none
    paymentDueAt := some 300000, amountCollected := none
    totalEstimate := none, updatedAt := 0 }

/-! ## General lemmas -/

theorem append_ne_empty_left (a b : String) (h : a ≠ "") : a ++ b ≠ "" := by
  intro hab
  have hl : (a ++ b).length = 0 := by rw [hab]; rfl
  rw [String.length_append] at hl
  have ha : a.length = 0 := by omega
  have hdata : a.data = [] := List.length_eq_zero.mp ha
  exact h (by cases a; simp_all)

theorem jsOrStr_ne_empty (a : Option String) (b : String) (h : b ≠ "") :
    jsOrStr a b ≠ "" := by
  unfold jsOrStr
  cases a with
  | none => exact h
  | some s =>
    by_cases hs : s = ""
    · simp [hs, h]
    · simp [hs]

theorem appendLog_orders (db : Db) (l : StatusLog) : (appendLog db l).orders = db.orders :=
  rfl

theorem updateOrderById_logs (db : Db) (oid : String) (f : Order → Order) :
    (updateOrderById db oid f).logs = db.logs :=
  rfl

theorem mem_updateOrderById (db : Db) (oid : String) (f : Order → Order)
    (x : Order) (hx : x ∈ (updateOrderById db oid f).orders) :
    ∃ r ∈ db.orders, x = if r.id = oid then f r else r := by
  simp only [updateOrderById] at hx
  rw [List.mem_map] at hx
  obtain ⟨r, hr, hxr⟩ := hx
  exact ⟨r, hr, hxr.symm⟩

theorem find?_update_list (l : List Order) (cid : String) (o : Order)
    (f : Order → Order)
    (hfind : l.find? (fun r => r.checkoutRequestId == some cid) = some o)
    (hnodup : (l.map Order.id).Nodup)
    (hcid : (f o).checkoutRequestId = o.checkoutRequestId) :
    (l.map (fun r => if r.id = o.id then f r else r)).find?
      (fun r => r.checkoutRequestId == some cid) = some (f o) := by
  induction l with
  | nil => simp [List.find?] at hfind
  | cons a t ih =>
    rw [List.map_cons] at hnodup ⊢
    by_cases ha : (a.checkoutRequestId == some cid) = true
    · rw [List.find?_cons, ha] at hfind
      injection hfind with hao
      subst hao
      rw [if_pos rfl]
      have hpos : ((f a).checkoutRequestId == some cid) = true := by
        rw [hcid]; exact ha
      rw [List.find?_cons, hpos]
    · have ha' : (a.checkoutRequestId == some cid) = false := by
        simpa using ha
      rw [List.find?_cons, ha'] at hfind
      have hot : o ∈ t := List.mem_of_find?_eq_some hfind
      have hmem : o.id ∈ t.map Order.id := List.mem_map_of_mem _ hot
      have hanotin : a.id ∉ t.map Order.id := (List.nodup_cons.mp hnodup).1
      have haid : ¬ (a.id = o.id) := fun h => hanotin (h ▸ hmem)
      rw [if_neg haid, List.find?_cons, ha']
      exact ih hfind (List.nodup_cons.mp hnodup).2

/-- Looking an order up by `checkoutRequestId` after updating that very
order by id: with unique ids and an update that does not touch the
`checkoutRequestId` column, the lookup returns the updated row. -/
theorem findByCheckoutRequestId_updateOrderById (db : Db) (cid : String)
    (o : Order) (f : Order → Order)
    (hfind : findByCheckoutRequestId db cid = some o)
    (hnodup : (db.orders.map Order.id).Nodup)
    (hcid : (f o).checkoutRequestId = o.checkoutRequestId) :
    findByCheckoutRequestId (updateOrderById db o.id f) cid = some (f o) :=
  find?_update_list db.orders cid o f hfind hnodup hcid

/-- The idempotency-guard exit of `processCallback`, as an equation. -/
theorem processCallback_already_processed
    (fm : CallbackFaults) (now : Int) (db : Db) (cb : StkCallback) (o : Order)
    (hfind : findByCheckoutRequestId db cb.CheckoutRequestID = some o)
    (hpaid : o.paymentStatus = PaymentStatus.PAID)
    (hrec : jsTruthyStr o.mpesaReceipt = true) :
    processCallback fm now db cb = (db, ⟨true, "Callback already processed"⟩) := by
  simp [processCallback, hfind, hpaid, hrec]

/-- The fault-free success-branch run of `processCallback`, as an
equation: one StatusLog append followed by the order update. -/
theorem processCallback_success_run
    (now : Int) (db : Db) (cb : StkCallback) (o : Order)
    (hfind : findByCheckoutRequestId db cb.CheckoutRequestID = some o)
    (hg : ¬(o.paymentStatus = PaymentStatus.PAID ∧ jsTruthyStr o.mpesaReceipt = true))
    (hcode : cb.ResultCode = 0) :
    processCallback noFaults now db cb =
      (updateOrderById (appendLog db (callbackSuccessLog o.id (receiptOfCallback cb)))
        o.id (callbackSuccessUpdate now (receiptOfCallback cb) (amountOfCallback cb)),
       ⟨true, "Callback processed successfully"⟩) := by
  simp [processCallback, hfind, hg, hcode, noFaults]

/-- The fault-free failure-branch run of `processCallback`, as an
equation. -/
theorem processCallback_failure_run
    (now : Int) (db : Db) (cb : StkCallback) (o : Order)
    (hfind : findByCheckoutRequestId db cb.CheckoutRequestID = some o)
    (hg : ¬(o.paymentStatus = PaymentStatus.PAID ∧ jsTruthyStr o.mpesaReceipt = true))
    (hcode : ¬ cb.ResultCode = 0) :
    processCallback noFaults now db cb =
      (updateOrderById (appendLog db (callbackFailureLog o.id cb.ResultDesc))
        o.id (callbackFailureUpdate now cb.ResultDesc),
       ⟨true, "Callback processed successfully"⟩) := by
  simp [processCallback, hfind, hg, hcode, noFaults]

/-! ## Claim C1 — idempotency of `processCallback` -/

/-- Claim C1, amended. Part 1: for an order already `PAID` whose receipt
is non-null AND non-empty (JS truthiness of `order.mpesaReceipt`),
`processCallback` returns success and performs no write whatsoever.
Part 2: processing the same successful callback twice is idempotent
PROVIDED the callback's metadata carries a non-empty
`MpesaReceiptNumber`: the first run appends exactly one StatusLog entry
and marks the order `PAID` with that receipt; the second run changes
nothing and reports success, so exactly one StatusLog entry results. -/
theorem callback_idempotency_amended :
    (∀ (fm : CallbackFaults) (now : Int) (db : Db) (cb : StkCallback) (o : Order),
      findByCheckoutRequestId db cb.CheckoutRequestID = some o →
      o.paymentStatus = PaymentStatus.PAID →
      (∃ r, o.mpesaReceipt = some r ∧ r ≠ "") →
      processCallback fm now db cb = (db, ⟨true, "Callback already processed"⟩)) ∧
    (∀ (now : Int) (db : Db) (cb : StkCallback) (o : Order) (r : String),
      (db.orders.map Order.id).Nodup →
      findByCheckoutRequestId db cb.CheckoutRequestID = some o →
      ¬(o.paymentStatus = PaymentStatus.PAID ∧ jsTruthyStr o.mpesaReceipt = true) →
      cb.ResultCode = 0 →
      receiptOfCallback cb = some r →
      r ≠ "" →
      (processCallback noFaults now db cb).1.logs.length = db.logs.length + 1 ∧
      findByCheckoutRequestId (processCallback noFaults now db cb).1 cb.CheckoutRequestID
        = some (callbackSuccessUpdate now (some r) (amountOfCallback cb) o) ∧
      processCallback noFaults now (processCallback noFaults now db cb).1 cb
        = ((processCallback noFaults now db cb).1, ⟨true, "Callback already processed"⟩)) := by
  constructor
  · intro fm now db cb o hfind hpaid ⟨r, hrec, hrne⟩
    refine processCallback_already_processed fm now db cb o hfind hpaid ?_
    rw [hrec]
    simpa [jsTruthyStr] using hrne
  · intro now db cb o r hnodup hfind hg hcode hrec hrne
    have hrun := processCallback_success_run now db cb o hfind hg hcode
    have hfind1 : findByCheckoutRequestId (processCallback noFaults now db cb).1
        cb.CheckoutRequestID
        = some (callbackSuccessUpdate now (some r) (amountOfCallback cb) o) := by
      rw [hrun]
      dsimp only
      rw [hrec]
      exact findByCheckoutRequestId_updateOrderById
        (appendLog db (callbackSuccessLog o.id (some r)))
        cb.CheckoutRequestID o
        (callbackSuccessUpdate now (some r) (amountOfCallback cb))
        hfind hnodup rfl
    refine ⟨?_, hfind1, ?_⟩
    · rw [hrun]
      simp [updateOrderById, appendLog]
    · refine processCallback_already_processed noFaults now _ cb _ hfind1 rfl ?_
      simp [callbackSuccessUpdate, jsTruthyStr, hrne]

/-- Claim C1, counterexample. Processing the same valid successful
callback twice yields TWO StatusLog entries, not one: the first run
leaves the order `PAID` with a null receipt (no `MpesaReceiptNumber` in
the metadata), so the idempotency guard — which requires a JS-truthy
receipt — does not fire on the second run, and the success branch runs
again. -/
theorem callback_twice_two_logs_counterexample :
    (processCallback noFaults 3
      (processCallback noFaults 3 ⟨[c1Order], []⟩ c1Cb).1 c1Cb).1.logs.length = 2 ∧
    (processCallback noFaults 3
      (processCallback noFaults 3 ⟨[c1Order], []⟩ c1Cb).1 c1Cb).2.success = true := by
  refine ⟨?_, ?_⟩ <;> decide

/-- Claim C1, amended-claim witness. -/
theorem callback_idempotency_amended_witness :
    processCallback noFaults 4 ⟨[c1PaidOrder], []⟩ c1WCb
      = (⟨[c1PaidOrder], []⟩, ⟨true, "Callback already processed"⟩) ∧
    (processCallback noFaults 4 ⟨[c1PendingOrder], []⟩ c1PCb).1.logs.length = 0 + 1 := by
  constructor
  · exact callback_idempotency_amended.1 noFaults 4 ⟨[c1PaidOrder], []⟩ c1WCb c1PaidOrder
      (by decide) (by decide) ⟨"RCPT1W", by decide, by decide⟩
  · exact (callback_idempotency_amended.2 4 ⟨[c1PendingOrder], []⟩ c1PCb c1PendingOrder
      "RCPT1P" (by decide) (by decide) (by decide) (by decide) (by decide) (by decide)).1

/-! ## Claim C2 — atomicity of the callback's order update + log append -/

/-- The general half of the amended C2: whenever the StatusLog append
inside `processCallback` fails, the database — in particular the
order's `paymentStatus` — is left completely unchanged, because the
source creates the log row before it updates the order. -/
theorem processCallback_logCreateFails_db_unchanged
    (fm : CallbackFaults) (now : Int) (db : Db) (cb : StkCallback)
    (h : fm.statusLogCreateFails = true) :
    (processCallback fm now db cb).1 = db := by
  unfold processCallback
  cases hfind : findByCheckoutRequestId db cb.CheckoutRequestID with
  | none => rfl
  | some o =>
    by_cases hg : o.paymentStatus = PaymentStatus.PAID ∧ jsTruthyStr o.mpesaReceipt = true
    · simp [hg]
    · simp [hg, h]

/-- Claim C2, counterexample. The two writes of `processCallback` are not
all-or-nothing: injecting a failure into the order update (the second
write) leaves the already-created StatusLog row observable while the
order is still `PENDING` — a half-applied state, contradicting the
claimed atomicity. (The source runs `statusLog.create` and
`order.update` as two separate awaits with no transaction.) -/
theorem processCallback_not_atomic_counterexample :
    (processCallback ⟨false, true⟩ 7 ⟨[c2Order], []⟩ c2Cb).1.logs.length = 1 ∧
    ((processCallback ⟨false, true⟩ 7 ⟨[c2Order], []⟩ c2Cb).1.orders.map
      Order.paymentStatus) = [PaymentStatus.PENDING] ∧
    (processCallback ⟨false, true⟩ 7 ⟨[c2Order], []⟩ c2Cb).2.success = false := by
  refine ⟨?_, ?_, ?_⟩ <;> decide

/-- Claim C2, amended-claim witness. -/
theorem processCallback_logCreateFails_db_unchanged_witness :
    (⟨true, false⟩ : CallbackFaults).statusLogCreateFails = true ∧
    (processCallback ⟨true, false⟩ 7 ⟨[c2Order], []⟩ c2Cb).1 = ⟨[c2Order], []⟩ :=
  ⟨rfl, processCallback_logCreateFails_db_unchanged ⟨true, false⟩ 7 ⟨[c2Order], []⟩ c2Cb rfl⟩

/-! ## Claim C3 — `PAID` implies a non-null receipt -/

/-- Claim C3, amended. `processCallback` preserves the `PAID` ⇒ receipt
invariant PROVIDED every successful callback it processes carries an
`MpesaReceiptNumber` metadata entry; the success branch then stores
that receipt together with `paymentStatus = 'PAID'`. (Without that
proviso the invariant is not preserved — see the counterexample.) -/
theorem processCallback_preserves_PaidHasReceipt
    (fm : CallbackFaults) (now : Int) (db : Db) (cb : StkCallback)
    (hdb : PaidHasReceipt db)
    (hrc : cb.ResultCode = 0 → receiptOfCallback cb ≠ none) :
    PaidHasReceipt (processCallback fm now db cb).1 := by
  unfold processCallback
  cases hfind : findByCheckoutRequestId db cb.CheckoutRequestID with
  | none => exact hdb
  | some o =>
    by_cases hg : o.paymentStatus = PaymentStatus.PAID ∧ jsTruthyStr o.mpesaReceipt = true
    · simpa [hg] using hdb
    · by_cases hlf : fm.statusLogCreateFails
      · simpa [hg, hlf] using hdb
      · by_cases huf : fm.orderUpdateFails
        · simpa [hg, hlf, huf, PaidHasReceipt, appendLog] using hdb
        · simp only [hg, hlf, huf, if_neg, if_false, Bool.false_eq_true,
            not_false_eq_true, if_true]
          intro x hx hpaid
          obtain ⟨r, hr, hxr⟩ := mem_updateOrderById _ _ _ _ hx
          by_cases hid : r.id = o.id
          · rw [hxr, if_pos hid]
            rw [hxr, if_pos hid] at hpaid
            by_cases hcode : cb.ResultCode = 0
            · have hne := hrc hcode
              cases hrec : receiptOfCallback cb with
              | none => exact absurd hrec hne
              | some s => simp [hcode, callbackSuccessUpdate, hrec]
            · rw [if_neg hcode] at hpaid
              simp [callbackFailureUpdate] at hpaid
          · rw [hxr, if_neg hid]
            rw [hxr, if_neg hid] at hpaid
            exact hdb r hr hpaid

/-- Claim C3, counterexample. Processing a successful callback whose
metadata lacks an `MpesaReceiptNumber` entry leaves the order `PAID`
with a null `mpesaReceipt`: `updateData.mpesaReceipt` is `undefined`,
so Prisma omits the column, while `paymentStatus` is still set to
`PAID` — the claimed invariant is violated by the code. -/
theorem paid_with_null_receipt_counterexample :
    ((processCallback noFaults 9 ⟨[c3Order], []⟩ c3Cb).1.orders.map
      (fun o => (o.paymentStatus, o.mpesaReceipt)))
      = [(PaymentStatus.PAID, (none : Option String))] := by
  decide

/-- Claim C3, amended-claim witness. -/
theorem processCallback_preserves_PaidHasReceipt_witness :
    PaidHasReceipt ⟨[c2Order], []⟩ ∧
    ((c2Cb.ResultCode = 0 → receiptOfCallback c2Cb ≠ none) ∧
      PaidHasReceipt (processCallback noFaults 9 ⟨[c2Order], []⟩ c2Cb).1) := by
  refine ⟨by decide, by decide, ?_⟩
  exact processCallback_preserves_PaidHasReceipt noFaults 9 ⟨[c2Order], []⟩ c2Cb
    (by decide) (by decide)

/-! ## Claim C10 — totality of `initiateStkPush` over its failure modes -/

/-- The function `formatPhoneNumber` either succeeds or throws its one fixed-shape
`Error`. -/
theorem formatPhoneNumber_cases (phone : String) :
    (∃ x, formatPhoneNumber phone = Except.ok x) ∨
      formatPhoneNumber phone = Except.error (some ("Invalid phone number format: " ++
        phone ++ ". Expected format: +254XXXXXXXXX or 0XXXXXXXXX")) := by
  simp only [formatPhoneNumber]
  repeat' split
  all_goals first
    | exact Or.inr rfl
    | exact Or.inl ⟨_, rfl⟩

theorem formatPhoneNumber_error_msg (phone : String) (m : Option String)
    (h : formatPhoneNumber phone = Except.error m) :
    ∃ s, m = some s ∧ s ≠ "" := by
  rcases formatPhoneNumber_cases phone with ⟨x, hx⟩ | he
  · rw [hx] at h
    exact Except.noConfusion h
  · rw [he] at h
    injection h with h'
    exact ⟨_, h'.symm, append_ne_empty_left _ _ (append_ne_empty_left _ _ (by decide))⟩

theorem generatePassword_error_msg (c : MpesaConfig) (ts : String) (m : Option String)
    (h : generatePassword c ts = Except.error m) :
    ∃ s, m = some s ∧ s ≠ "" := by
  unfold generatePassword at h
  split at h
  · injection h with h'
    exact ⟨_, h'.symm, by decide⟩
  · exact Except.noConfusion h

/-- Claim C10. `initiateStkPush` is total over its failure modes: under
the JS runtime assumption that thrown `Error`s carry non-empty
messages, every run that reports `success = false` — missing
configuration, credential-validation failure, token-fetch failure or
rejection, unnormalizable phone number, missing passkey, transport or
parse exceptions, non-OK provider HTTP response, provider response code
other than `"0"`, or a throwing order update — returns a structured
`STKPushResponse` with a non-empty `errorMessage`, and leaves the
database (in particular the order row) completely unchanged. -/
theorem initiateStkPush_total_on_failure
    (env : StkEnv) (now : Int) (db : Db) (req : STKPushRequest)
    (henv : StkEnv.errorsNonempty env) :
    (initiateStkPush env now db req).resp.success = false →
      (∃ m, (initiateStkPush env now db req).resp.errorMessage = some m ∧ m ≠ "") ∧
      (initiateStkPush env now db req).db = db := by
  obtain ⟨h1, h2, h3⟩ := henv
  unfold initiateStkPush
  split
  · intro _
    exact ⟨⟨"M-Pesa configuration incomplete", rfl, by decide⟩, rfl⟩
  · split
    · intro _
      refine ⟨⟨_, rfl, ?_⟩, rfl⟩
      exact append_ne_empty_left _ _ (by decide)
    · cases hoauth : env.oauth with
      | thrown m =>
        intro _
        refine ⟨⟨m.getD "Unknown error occurred", rfl, ?_⟩, rfl⟩
        cases m with
        | none => decide
        | some s =>
          rw [hoauth] at h1
          simpa [fetchMsgNonempty] using h1
      | ok r =>
        dsimp only
        split
        · intro _
          refine ⟨⟨_, rfl, ?_⟩, rfl⟩
          exact append_ne_empty_left _ _ (append_ne_empty_left _ _
            (append_ne_empty_left _ _ (by decide)))
        · cases hphone : formatPhoneNumber req.phone with
          | error m =>
            intro _
            obtain ⟨s, hs, hsne⟩ := formatPhoneNumber_error_msg _ _ hphone
            subst hs
            exact ⟨⟨s, rfl, hsne⟩, rfl⟩
          | ok formattedPhone =>
            dsimp only
            cases hpass : generatePassword env.config env.timestamp with
            | error m =>
              intro _
              obtain ⟨s, hs, hsne⟩ := generatePassword_error_msg _ _ _ hpass
              subst hs
              exact ⟨⟨s, rfl, hsne⟩, rfl⟩
            | ok password =>
              dsimp only
              cases hpush : env.push with
              | thrown m =>
                intro _
                refine ⟨⟨m.getD "Unknown error occurred", rfl, ?_⟩, rfl⟩
                cases m with
                | none => decide
                | some s =>
                  rw [hpush] at h2
                  simpa [fetchMsgNonempty] using h2
              | ok resp =>
                dsimp only
                split
                · intro _
                  refine ⟨⟨_, rfl, ?_⟩, rfl⟩
                  exact jsOrStr_ne_empty _ _ (by decide)
                · split
                  · cases hupd : env.orderUpdateThrow with
                    | some m =>
                      intro _
                      refine ⟨⟨m.getD "Unknown error occurred", rfl, ?_⟩, rfl⟩
                      cases m with
                      | none => decide
                      | some s =>
                        rw [hupd] at h3
                        simpa [thrownMsgNonempty] using h3
                    | none =>
                      dsimp only
                      split
                      · intro _
                        exact ⟨⟨"Record to update not found.", rfl, by decide⟩, rfl⟩
                      · intro hfalse
                        exact Bool.noConfusion hfalse
                  · intro _
                    refine ⟨⟨_, rfl, ?_⟩, rfl⟩
                    exact jsOrStr_ne_empty _ _ (by decide)

/-- Claim C10, witness. -/
theorem initiateStkPush_total_on_failure_witness :
    StkEnv.errorsNonempty c10Env ∧
    (initiateStkPush c10Env 0 ⟨[], []⟩ c10Req).resp.success = false ∧
    ((∃ m, (initiateStkPush c10Env 0 ⟨[], []⟩ c10Req).resp.errorMessage = some m ∧ m ≠ "") ∧
      (initiateStkPush c10Env 0 ⟨[], []⟩ c10Req).db = ⟨[], []⟩) := by
  refine ⟨⟨by decide, by decide, by decide⟩, by decide, ?_⟩
  exact initiateStkPush_total_on_failure c10Env 0 ⟨[], []⟩ c10Req
    ⟨by decide, by decide, by decide⟩ (by decide)

/-! ## Claim C4 — the 5-minute duplicate-payment guard -/

/-- A status-code helper for C4: the continuation that calls the
provider never answers 429, so a 429 reply can only come from the
in-progress guard. -/
theorem payPOSTStkContinue_status_ne_429 (run : StkRun) :
    (payPOSTStkContinue run).status ≠ 429 := by
  unfold payPOSTStkContinue
  split <;> simp

/-- Claim C4, counterexample. The checkout action's `initiatePayment`, on
an order with `checkoutRequestId` set, `paymentStatus = 'PENDING'` and
`updatedAt` one minute old, does NOT fail with the conflict error when
the order's `totalEstimate` is null: the total-availability check runs
before the in-progress guard and returns a validation error instead
(still without any provider call or mutation). -/
theorem guard_claim_counterexample :
    initiatePayment c4Env 60000 ⟨[c4Order], []⟩ "order-c4" "0712345678"
      = ⟨⟨[c4Order], []⟩, ⟨false, some "Order total is not available", none, none⟩,
         false, false⟩ ∧
    (some "Order total is not available" : Option String)
      ≠ some "Payment is already in progress. Please wait a few minutes before trying again." := by
  exact ⟨by decide, by decide⟩

/-- Claim C4, amended. With the extra premises the code actually requires
— a non-empty (JS-truthy) `checkoutRequestId`, `orderStatus ≠
'CANCELLED'`, and (for the checkout action) a non-null `totalEstimate`
— the 5-minute guard behaves as claimed in both entry points: within
five minutes of `updatedAt` the call fails with the
payment-already-in-progress conflict (HTTP 429 resp. the form error),
no provider call is issued and nothing is written; at five minutes or
older the guard does not block, and execution proceeds to the provider
call. -/
theorem payment_in_progress_guard_amended :
    (∀ (env : StkEnv) (now : Int) (db : Db) (o : Order) (oid phone : String) (amt : Rat),
      oid ≠ "" → phone ≠ "" → amt ≠ 0 →
      findById db oid = some o →
      o.paymentStatus = PaymentStatus.PENDING →
      jsTruthyStr o.checkoutRequestId = true →
      o.orderStatus ≠ OrderStatus.CANCELLED →
      now - o.updatedAt < 5 * 60 * 1000 →
      payPOST env now db (some oid) (some phone) (some amt)
        = ⟨db, 429, false,
           some "Payment is already in progress. Please wait a few minutes before trying again.",
           false, false⟩) ∧
    (∀ (env : StkEnv) (now : Int) (db : Db) (o : Order) (oid phone : String) (amt : Rat),
      oid ≠ "" → phone ≠ "" → amt ≠ 0 →
      findById db oid = some o →
      o.paymentStatus = PaymentStatus.PENDING →
      o.orderStatus ≠ OrderStatus.CANCELLED →
      ¬ (now - o.updatedAt < 5 * 60 * 1000) →
      payPOST env now db (some oid) (some phone) (some amt)
        = payPOSTStkContinue (initiateStkPush env now db
            { orderId := o.id, phone := phone, amount := amt
              accountReference := some ("SHOP4ME-" ++ o.id)
              transactionDesc := some ("Shop4Me Order " ++ o.id) }) ∧
      (payPOST env now db (some oid) (some phone) (some amt)).status ≠ 429) ∧
    (∀ (env : StkEnv) (now : Int) (db : Db) (o : Order) (oidf phonef : String) (te : Rat),
      jsTrim oidf ≠ "" → jsTrim phonef ≠ "" →
      findById db (jsTrim oidf) = some o →
      o.totalEstimate = some te →
      o.paymentStatus = PaymentStatus.PENDING →
      jsTruthyStr o.checkoutRequestId = true →
      o.orderStatus ≠ OrderStatus.CANCELLED →
      now - o.updatedAt < 5 * 60 * 1000 →
      initiatePayment env now db oidf phonef
        = ⟨db, ⟨false,
            some "Payment is already in progress. Please wait a few minutes before trying again.",
            none, none⟩, false, false⟩) ∧
    (∀ (env : StkEnv) (now : Int) (db : Db) (o : Order) (oidf phonef : String) (te : Rat),
      jsTrim oidf ≠ "" → jsTrim phonef ≠ "" →
      findById db (jsTrim oidf) = some o →
      o.totalEstimate = some te →
      o.paymentStatus = PaymentStatus.PENDING →
      o.orderStatus ≠ OrderStatus.CANCELLED →
      ¬ (now - o.updatedAt < 5 * 60 * 1000) →
      initiatePayment env now db oidf phonef
        = initiatePaymentStkContinue (initiateStkPush env now db
            { orderId := o.id, phone := sanitizePhone (jsTrim phonef), amount := te
              accountReference := some ("SHOP4ME-" ++ o.id)
              transactionDesc := some ("Shop4Me Order " ++ o.id) })) := by
  refine ⟨?_, ?_, ?_, ?_⟩
  · intro env now db o oid phone amt hoid hphone hamt hfind hps hcid hoc hlt
    have h1 : jsFalsyStr (some oid) = false := by simp [jsFalsyStr, jsTruthyStr, hoid]
    have h2 : jsFalsyStr (some phone) = false := by simp [jsFalsyStr, jsTruthyStr, hphone]
    have h3 : jsTruthyNum (some amt) = true := by simp [jsTruthyNum, hamt]
    have hlt' : now - o.updatedAt < 300000 := by simpa using hlt
    simp [payPOST, h1, h2, h3, hfind, hps, hcid, hoc, hlt']
  · intro env now db o oid phone amt hoid hphone hamt hfind hps hoc hge
    have h1 : jsFalsyStr (some oid) = false := by simp [jsFalsyStr, jsTruthyStr, hoid]
    have h2 : jsFalsyStr (some phone) = false := by simp [jsFalsyStr, jsTruthyStr, hphone]
    have h3 : jsTruthyNum (some amt) = true := by simp [jsTruthyNum, hamt]
    have hge' : ¬ now - o.updatedAt < 300000 := by simpa using hge
    have heq : payPOST env now db (some oid) (some phone) (some amt)
        = payPOSTStkContinue (initiateStkPush env now db
            { orderId := o.id, phone := phone, amount := amt
              accountReference := some ("SHOP4ME-" ++ o.id)
              transactionDesc := some ("Shop4Me Order " ++ o.id) }) := by
      simp [payPOST, h1, h2, h3, hfind, hps, hoc, hge']
    refine ⟨heq, ?_⟩
    rw [heq]
    exact payPOSTStkContinue_status_ne_429 _
  · intro env now db o oidf phonef te hoid hphone hfind hte hps hcid hoc hlt
    have hlt' : now - o.updatedAt < 300000 := by simpa using hlt
    simp [initiatePayment, hoid, hphone, hfind, hte, hps, hcid, hoc, hlt']
  · intro env now db o oidf phonef te hoid hphone hfind hte hps hoc hge
    have hge' : ¬ now - o.updatedAt < 300000 := by simpa using hge
    simp [initiatePayment, hoid, hphone, hfind, hte, hps, hoc, hge']

/-- Claim C4, amended-claim witness. One minute after `updatedAt` both
entry points answer with the conflict; at exactly five minutes the
route no longer answers 429 (the guard's `<` is strict). -/
theorem payment_in_progress_guard_amended_witness :
    payPOST c4Env 60000 ⟨[c4WOrder], []⟩ (some "order-c4w") (some "0712345678") (some 100)
      = ⟨⟨[c4WOrder], []⟩, 429, false,
         some "Payment is already in progress. Please wait a few minutes before trying again.",
         false, false⟩ ∧
    (payPOST c4Env 300000 ⟨[c4WOrder], []⟩ (some "order-c4w") (some "0712345678")
      (some 100)).status ≠ 429 ∧
    initiatePayment c4Env 60000 ⟨[c4WOrder], []⟩ "order-c4w" "0712345678"
      = ⟨⟨[c4WOrder], []⟩, ⟨false,
          some "Payment is already in progress. Please wait a few minutes before trying again.",
          none, none⟩, false, false⟩ := by
  refine ⟨?_, ?_, ?_⟩
  · exact payment_in_progress_guard_amended.1 c4Env 60000 ⟨[c4WOrder], []⟩ c4WOrder
      "order-c4w" "0712345678" 100 (by decide) (by decide) (by decide) (by decide)
      (by decide) (by decide) (by decide) (by decide)
  · exact (payment_in_progress_guard_amended.2.1 c4Env 300000 ⟨[c4WOrder], []⟩ c4WOrder
      "order-c4w" "0712345678" 100 (by decide) (by decide) (by decide) (by decide)
      (by decide) (by decide) (by decide)).2
  · exact payment_in_progress_guard_amended.2.2.1 c4Env 60000 ⟨[c4WOrder], []⟩ c4WOrder
      "order-c4w" "0712345678" 1000 (by decide) (by decide) (by decide) (by decide)
      (by decide) (by decide) (by decide) (by decide)

/-! ## Claim C6 — acknowledgment policy of the callback route -/

/-- Claim C6, counterexample. A structurally valid callback whose
`CheckoutRequestID` matches no order mutates nothing — but the route
answers HTTP 500, not a 2xx acknowledgment: `processCallback` reports
failure and the handler maps every processing failure to 500. Only the
`catch` block (reached on a throwing `request.json()`) answers 200
with an error body. -/
theorem callback_route_unknown_order_500_counterexample :
    mpesaCallbackPOST noFaults 0 ⟨[], []⟩
        (some ⟨some ⟨some "MR-x", some "CR-x", 0, "ok", none⟩⟩)
      = (⟨[], []⟩, ⟨500, false, none, some "Order not found"⟩) ∧
    ¬ (200 ≤ 500 ∧ 500 < 300) := by
  exact ⟨by decide, by decide⟩

/-- Claim C6, amended. When a structurally valid callback carries a
`CheckoutRequestID` that matches no order, `processCallback` mutates
nothing and reports the failure — but the route returns HTTP 500 (not
a 2xx acknowledgment). A 400 response is returned exactly for payloads
that parsed but are structurally invalid (missing `Body.stkCallback`
or a JS-falsy correlation id); a throwing `request.json()` is
acknowledged with 200 by the catch block. -/
theorem callback_route_ack_amended :
    (∀ (fm : CallbackFaults) (now : Int) (db : Db) (sc : RawStkCallback),
      jsFalsyStr sc.MerchantRequestID = false →
      jsFalsyStr sc.CheckoutRequestID = false →
      findByCheckoutRequestId db (sc.CheckoutRequestID.getD "") = none →
      mpesaCallbackPOST fm now db (some ⟨some sc⟩)
        = (db, ⟨500, false, none, some "Order not found"⟩)) ∧
    (∀ (fm : CallbackFaults) (now : Int) (db : Db) (parse : Option RawCallback),
      ((mpesaCallbackPOST fm now db parse).2.status = 400 ↔
        structurallyInvalid parse = true)) := by
  constructor
  · intro fm now db sc h1 h2 hfind
    simp [mpesaCallbackPOST, processCallback, h1, h2, hfind]
  · intro fm now db parse
    cases parse with
    | none => simp [mpesaCallbackPOST, structurallyInvalid]
    | some body =>
      cases hsc : body.stkCallback with
      | none => simp [mpesaCallbackPOST, structurallyInvalid, hsc]
      | some sc =>
        by_cases hv : (jsFalsyStr sc.MerchantRequestID || jsFalsyStr sc.CheckoutRequestID) = true
        · simp [mpesaCallbackPOST, structurallyInvalid, hsc, hv]
        · simp only [mpesaCallbackPOST, hsc, hv, Bool.false_eq_true, if_false, if_neg,
            not_false_eq_true]
          split <;> simp [structurallyInvalid, hsc, hv]

/-- Claim C6, amended-claim witness. -/
theorem callback_route_ack_amended_witness :
    mpesaCallbackPOST noFaults 5 ⟨[], []⟩
        (some ⟨some ⟨some "MR-w6", some "CR-w6", 0, "ok", none⟩⟩)
      = (⟨[], []⟩, ⟨500, false, none, some "Order not found"⟩) ∧
    ((mpesaCallbackPOST noFaults 5 ⟨[], []⟩ none).2.status = 400 ↔
      structurallyInvalid (none : Option RawCallback) = true) := by
  constructor
  · exact callback_route_ack_amended.1 noFaults 5 ⟨[], []⟩
      ⟨some "MR-w6", some "CR-w6", 0, "ok", none⟩ (by decide) (by decide) (by decide)
  · exact callback_route_ack_amended.2 noFaults 5 ⟨[], []⟩ none

/-! ## Claim C7 — the reconciliation sweep's expiry pass -/

theorem expirySeq_nil (now : Int) (r : Order) : expirySeq now [] r = r :=
  rfl

theorem expirySeq_cons (now : Int) (a : Order) (S : List Order) (r : Order) :
    expirySeq now (a :: S) r
      = expirySeq now S (if r.id = a.id then expireOrder now r else r) :=
  rfl

theorem expireOrder_id (now : Int) (r : Order) : (expireOrder now r).id = r.id :=
  rfl

theorem expirySeq_not_selected (now : Int) (S : List Order) (r : Order)
    (h : ∀ o ∈ S, o.id ≠ r.id) : expirySeq now S r = r := by
  induction S with
  | nil => rfl
  | cons a t ih =>
    rw [expirySeq_cons]
    have hne : ¬ (r.id = a.id) := fun hh => (h a (by simp)) (hh.symm)
    rw [if_neg hne]
    exact ih (fun o ho => h o (by simp [ho]))

/-- The per-row result of the expiry loop over the selected snapshot:
with unique ids, a row is expired exactly when the query predicate
selects it. -/
theorem expirySeq_filter (now : Int) (l : List Order)
    (hnodup : (l.map Order.id).Nodup) (r : Order) (hr : r ∈ l) :
    expirySeq now (l.filter (overduePred now)) r
      = if overduePred now r then expireOrder now r else r := by
  induction l with
  | nil => cases hr
  | cons a t ih =>
    rw [List.map_cons, List.nodup_cons] at hnodup
    obtain ⟨hna, hnt⟩ := hnodup
    rcases List.mem_cons.mp hr with hra | hrt
    · subst hra
      by_cases hp : overduePred now r = true
      · rw [List.filter_cons_of_pos hp, if_pos hp, expirySeq_cons, if_pos rfl]
        refine expirySeq_not_selected now _ _ ?_
        intro o ho
        rw [expireOrder_id]
        exact fun hh => hna (hh ▸ List.mem_map_of_mem _ (List.mem_of_mem_filter ho))
      · rw [List.filter_cons_of_neg (by simpa using hp), if_neg hp]
        refine expirySeq_not_selected now _ _ ?_
        intro o ho
        exact fun hh => hna (hh ▸ List.mem_map_of_mem _ (List.mem_of_mem_filter ho))
    · have hne : ¬ (r.id = a.id) :=
        fun hh => hna (hh ▸ List.mem_map_of_mem _ hrt)
      by_cases hp : overduePred now a = true
      · rw [List.filter_cons_of_pos hp, expirySeq_cons, if_neg hne]
        exact ih hnt hrt
      · rw [List.filter_cons_of_neg (by simpa using hp)]
        exact ih hnt hrt

theorem expiryFold_logs (now : Int) (S : List Order) (db : Db) :
    (S.foldl (fun acc o =>
        appendLog (updateOrderById acc o.id (expireOrder now)) (expiryLog o.id)) db).logs
      = db.logs ++ S.map (fun o => expiryLog o.id) := by
  induction S generalizing db with
  | nil => simp
  | cons a t ih =>
    rw [List.foldl_cons, ih]
    simp [appendLog, updateOrderById]

theorem expiryFold_orders (now : Int) (S : List Order) (db : Db) :
    (S.foldl (fun acc o =>
        appendLog (updateOrderById acc o.id (expireOrder now)) (expiryLog o.id)) db).orders
      = db.orders.map (expirySeq now S) := by
  induction S generalizing db with
  | nil =>
    rw [List.foldl_nil]
    have h : db.orders.map (expirySeq now []) = db.orders.map id :=
      List.map_congr_left (fun r _ => expirySeq_nil now r)
    rw [h, List.map_id]
  | cons a t ih =>
    rw [List.foldl_cons, ih]
    simp only [appendLog, updateOrderById, List.map_map]
    apply List.map_congr_left
    intro r _
    rw [Function.comp_apply, expirySeq_cons]

/-- Claim C7, amended. The expiry pass selects exactly the orders with
`paymentStatus = 'PENDING'`, `orderStatus ≠ 'CANCELLED'` and
`paymentDueAt` STRICTLY older than the 30-minute cutoff (`lt`): each
selected order is set to `paymentStatus = 'FAILED'`, `orderStatus =
'CANCELLED'`, `reconciliationStatus = 'COMPLETED'` with the timeout
cancellation reason, and exactly one StatusLog entry is appended per
selected order; every other row and log is untouched. An order whose
`paymentDueAt` lies exactly at the 30-minute boundary is NOT expired —
only strictly past the boundary is it swept. -/
theorem reconciliation_expiry_characterization (now : Int) (db : Db)
    (hnodup : (db.orders.map Order.id).Nodup) :
    (expiryPass now db).1.orders
      = db.orders.map (fun o => if overduePred now o then expireOrder now o else o) ∧
    (expiryPass now db).1.logs
      = db.logs ++ (db.orders.filter (overduePred now)).map (fun o => expiryLog o.id) ∧
    (expiryPass now db).2 = (db.orders.filter (overduePred now)).length := by
  refine ⟨?_, ?_, rfl⟩
  · show ((db.orders.filter (overduePred now)).foldl _ db).orders = _
    rw [expiryFold_orders]
    exact List.map_congr_left (fun r hr => expirySeq_filter now db.orders hnodup r hr)
  · show ((db.orders.filter (overduePred now)).foldl _ db).logs = _
    rw [expiryFold_logs]

/-- Claim C7, counterexample. At `now = 3600000` the order's
`paymentDueAt = 1800000` lies exactly at the 30-minute boundary; the
claim says the sweep expires it, but the query uses a strict `lt`, so
the sweep selects nothing and changes nothing. One millisecond past the
boundary the same order is selected. -/
theorem expiry_boundary_counterexample :
    expiryPass 3600000 ⟨[c7Order], []⟩ = (⟨[c7Order], []⟩, 0) ∧
    overduePred 3600000 c7Order = false ∧
    overduePred 3600001 c7Order = true := by
  exact ⟨by decide, by decide, by decide⟩

/-- Claim C7, amended-claim witness. -/
theorem reconciliation_expiry_characterization_witness :
    (expiryPass 1800001 ⟨[c7WOrder], []⟩).1.orders
      = [c7WOrder].map (fun o => if overduePred 1800001 o then expireOrder 1800001 o else o) ∧
    (expiryPass 1800001 ⟨[c7WOrder], []⟩).1.logs
      = [] ++ ([c7WOrder].filter (overduePred 1800001)).map (fun o => expiryLog o.id) := by
  have h := reconciliation_expiry_characterization 1800001 ⟨[c7WOrder], []⟩ (by decide)
  exact ⟨h.1, h.2.1⟩

/-! ## Claim C8 — the admin status update has no transition validation -/

/-- The successful run of `updateOrderStatus`, as an equation: after
the admin, field-presence and enum-membership checks, the requested
status is written unconditionally and one StatusLog row is appended —
no inspection of the current status whatsoever. (Shared helper for C5
and C8.) -/
theorem updateOrderStatus_success_run
    (uid : Option String) (now : Int) (db : Db) (oidf stf nf : String)
    (st : OrderStatus) (o : Order)
    (hparse : parseOrderStatus (jsTrim stf) = some st)
    (hoid : jsTrim oidf ≠ "") (hst : jsTrim stf ≠ "")
    (hfind : findById db (jsTrim oidf) = some o) :
    updateOrderStatus true uid now db oidf stf nf
      = (appendLog (updateOrderById db (jsTrim oidf)
            (fun r => { r with orderStatus := st, updatedAt := now }))
          { orderId := jsTrim oidf, status := st, actor := StatusActor.ADMIN
            actorUserId := uid, channel := StatusChannel.ADMIN_PORTAL
            note := if jsTrim nf = "" then none else some (jsTrim nf) },
         ⟨true, none⟩) := by
  simp [updateOrderStatus, hparse, hoid, hst, hfind]

/-- Claim C8, amended. `updateOrderStatus` validates only admin access,
field presence and membership of the requested status in the seven-value
enum; it then applies ANY requested status regardless of the order's
current status — the forward chain is not enforced, and moving out of
`CANCELLED` or `DELIVERED` is a silently allowed edge with no
override flag anywhere in the operation's inputs. Each successful
update appends exactly one StatusLog entry (sequentially, not in a
transaction). -/
theorem admin_status_update_no_state_machine
    (uid : Option String) (now : Int) (db : Db) (oidf stf nf : String)
    (st : OrderStatus) (o : Order)
    (hparse : parseOrderStatus (jsTrim stf) = some st)
    (hoid : jsTrim oidf ≠ "") (hst : jsTrim stf ≠ "")
    (hfind : findById db (jsTrim oidf) = some o) :
    (updateOrderStatus true uid now db oidf stf nf).2 = ⟨true, none⟩ ∧
    (updateOrderStatus true uid now db oidf stf nf).1.orders
      = db.orders.map (fun r => if r.id = jsTrim oidf
          then { r with orderStatus := st, updatedAt := now } else r) ∧
    (updateOrderStatus true uid now db oidf stf nf).1.logs.length
      = db.logs.length + 1 := by
  rw [updateOrderStatus_success_run uid now db oidf stf nf st o hparse hoid hst hfind]
  refine ⟨rfl, rfl, ?_⟩
  simp [appendLog, updateOrderById]

/-- Claim C8, counterexample. An admin request moves a `DELIVERED` order
straight back to `DRAFT` — an edge outside the allowed forward chain —
and succeeds silently: there is no override flag in the operation's
interface and no confirmation of any kind; the update is applied and
reported as a plain success. -/
theorem terminal_status_override_counterexample :
    (updateOrderStatus true (some "admin-1") 11 ⟨[c8Order], []⟩
      "order-c8" "DRAFT" "").2 = ⟨true, none⟩ ∧
    ((updateOrderStatus true (some "admin-1") 11 ⟨[c8Order], []⟩
      "order-c8" "DRAFT" "").1.orders.map Order.orderStatus) = [OrderStatus.DRAFT] ∧
    c8Order.orderStatus = OrderStatus.DELIVERED := by
  exact ⟨by decide, by decide, by decide⟩

/-- Claim C8, amended-claim witness. -/
theorem admin_status_update_no_state_machine_witness :
    (updateOrderStatus true (some "admin-1") 11 ⟨[c8Order], []⟩
      "order-c8" "SHOPPING" "restock").2 = ⟨true, none⟩ ∧
    (updateOrderStatus true (some "admin-1") 11 ⟨[c8Order], []⟩
      "order-c8" "SHOPPING" "restock").1.logs.length = 0 + 1 := by
  have h := admin_status_update_no_state_machine (some "admin-1") 11 ⟨[c8Order], []⟩
    "order-c8" "SHOPPING" "restock" OrderStatus.SHOPPING c8Order
    (by decide) (by decide) (by decide) (by decide)
  exact ⟨h.1, h.2.2⟩

/-! ## Claim C5 — status changes paired with StatusLog appends -/

/-- No exit of `initiateStkPush` ever writes to the StatusLog. -/
theorem initiateStkPush_no_logs (env : StkEnv) (now : Int) (db : Db)
    (req : STKPushRequest) :
    (initiateStkPush env now db req).db.logs = db.logs := by
  unfold initiateStkPush
  repeat' split
  all_goals rfl

/-- Claim C5, counterexample. On provider acceptance `initiateStkPush`
changes the order's `orderStatus` from `DRAFT` to `PENDING_PAYMENT` and
appends NO StatusLog entry — a status mutation without its paired
audit append, contradicting the claimed invariant. (No operation in the
code uses a transaction either.) -/
theorem stk_accept_no_statuslog_counterexample :
    ((initiateStkPush c5Env 0 ⟨[c5Order], []⟩ c5Req).db.orders.map Order.orderStatus)
      = [OrderStatus.PENDING_PAYMENT] ∧
    (initiateStkPush c5Env 0 ⟨[c5Order], []⟩ c5Req).db.logs = [] ∧
    c5Order.orderStatus = OrderStatus.DRAFT := by
  exact ⟨by decide, by decide, by decide⟩

/-- Claim C5, amended. The pairing holds for three of the four status
writers, as two sequential writes rather than one transaction: a
fault-free `processCallback` run that changes state appends exactly one
StatusLog entry, a successful `updateOrderStatus` appends exactly one,
and the reconciliation expiry pass appends exactly one per expired
order. The fourth writer breaks the invariant: `initiateStkPush`'s
provider-acceptance update sets `orderStatus = 'PENDING_PAYMENT'`
without any StatusLog append. -/
theorem status_change_log_pairing_amended :
    (∀ (now : Int) (db : Db) (cb : StkCallback) (o : Order),
      findByCheckoutRequestId db cb.CheckoutRequestID = some o →
      ¬(o.paymentStatus = PaymentStatus.PAID ∧ jsTruthyStr o.mpesaReceipt = true) →
      (processCallback noFaults now db cb).1.logs.length = db.logs.length + 1) ∧
    (∀ (uid : Option String) (now : Int) (db : Db) (oidf stf nf : String)
        (st : OrderStatus) (o : Order),
      parseOrderStatus (jsTrim stf) = some st →
      jsTrim oidf ≠ "" → jsTrim stf ≠ "" →
      findById db (jsTrim oidf) = some o →
      (updateOrderStatus true uid now db oidf stf nf).1.logs.length
        = db.logs.length + 1) ∧
    (∀ (now : Int) (db : Db),
      (expiryPass now db).1.logs.length
        = db.logs.length + (db.orders.filter (overduePred now)).length) ∧
    (∀ (env : StkEnv) (now : Int) (db : Db) (req : STKPushRequest),
      (initiateStkPush env now db req).db.logs = db.logs) := by
  refine ⟨?_, ?_, ?_, ?_⟩
  · intro now db cb o hfind hg
    by_cases hcode : cb.ResultCode = 0
    · rw [processCallback_success_run now db cb o hfind hg hcode]
      simp [appendLog, updateOrderById]
    · rw [processCallback_failure_run now db cb o hfind hg hcode]
      simp [appendLog, updateOrderById]
  · intro uid now db oidf stf nf st o hparse hoid hst hfind
    rw [updateOrderStatus_success_run uid now db oidf stf nf st o hparse hoid hst hfind]
    simp [appendLog, updateOrderById]
  · intro now db
    show ((db.orders.filter (overduePred now)).foldl _ db).logs.length = _
    rw [expiryFold_logs]
    simp
  · exact initiateStkPush_no_logs

/-- Claim C5, amended-claim witness. -/
theorem status_change_log_pairing_amended_witness :
    (processCallback noFaults 6 ⟨[c5WOrder], []⟩
        ⟨"MR-c5w", "CR-c5w", 1032, "Request cancelled by user", none⟩).1.logs.length
      = 0 + 1 ∧
    (initiateStkPush c5Env 0 ⟨[c5Order], []⟩ c5Req).db.logs = [] := by
  constructor
  · exact status_change_log_pairing_amended.1 6 ⟨[c5WOrder], []⟩
      ⟨"MR-c5w", "CR-c5w", 1032, "Request cancelled by user", none⟩ c5WOrder
      (by decide) (by decide)
  · exact status_change_log_pairing_amended.2.2.2 c5Env 0 ⟨[c5Order], []⟩ c5Req

/-! ## Claim C9 — the amount-conversion round trip -/

/-- Claim C9, code bug. The two ends of the conversion disagree about the
unit. Outbound, `initiateStkPush` sends `Amount: Math.round(amount)` —
whole currency units (`jsMathRound`, used in `stkPayload`): 1500.50 is
sent as 1501. Inbound, `processCallback` divides the callback's echoed
amount by 100 (`amountCollected: amount / 100`, claiming "M-Pesa
returns amount in cents"): the echoed 1501 is recorded as 15.01. The
round trip therefore produces 15.01 from 1500.50 — off by 1485.49,
far beyond one minor unit; the code's own reconciliation pass would
flag every such payment as an amount discrepancy. -/
theorem minor_unit_roundtrip_bug :
    jsMathRound (3001/2 : Rat) = 1501 ∧
    (∀ (now : Int) (o : Order),
      (callbackSuccessUpdate now (some "SGR7LP0EX1") (some 1501) o).amountCollected
        = some ((1501 : Rat)/100)) ∧
    ¬ (|(1501 : Rat)/100 - 3001/2| ≤ 1/100) := by
  refine ⟨?_, ?_, ?_⟩
  · unfold jsMathRound
    have h : (3001/2 + 1/2 : Rat) = (1501 : Rat) := by norm_num
    rw [h]
    decide
  · intro now o
    have h0 : ¬ ((1501 : Rat) = 0) := by norm_num
    simp [callbackSuccessUpdate, h0]
  · rw [abs_sub_comm]
    norm_num
    rw [abs_of_pos (by norm_num : (0 : Rat) < 148549 / 100)]
    norm_num

end Shop4Me
